import Mathlib

/-!
# tg-notify-service: the throttling decision and the request handler

A shallow embedding of `main.go`.  The process-wide globals of the program
(`config`, `notifies`, `tgBot`) and the outside world it talks to (the wall
clock, the Telegram API, the SQLite file) become explicit arguments:

* `Config` is the parsed `config.json`;
* `Table` is the content of the table `notifies`, one `Row` per row, in rowid
  order, each row holding what SQLite holds in its columns;
* `World` fixes what the outside world answers during one request: the two
  readings of `time.Now()`, whether `tgBot.Send` returns an error, and whether
  the database driver reports an error for the query or for the insert;
* `numeric` is the conversion SQLite applies to a text that enters the column
  `type STRING`, whose declared type gives it NUMERIC affinity.

Numbers: a `time.Time` is an instant in integer nanoseconds since the Unix
epoch together with the UTC offset of its location; a `time.Duration` is an
`int64` count of nanoseconds, and `Time.Sub` saturates at its bounds; a
`float64` is the rational number it denotes, and every `float64` operation
rounds its exact result to the nearest number with a 53-bit significand, ties
to even.
-/

namespace TgNotify

/-! ## Data model (main.go, lines 24-52) -/

/-- A `time.Time`: the instant, in nanoseconds since the Unix epoch, and the
offset from UTC that the location of the value has at that instant, in
minutes (the offsets of the time zone database in use today are whole
minutes). -/
structure Time where
  unixNano : Int
  offset : Int
deriving DecidableEq

/-- A `time.Duration`, in nanoseconds. -/
abbrev Duration := Int

/-- The constant `time.Second`. -/
def Second : Duration := 1000000000

/-- The largest `time.Duration`, `1<<63 - 1`. -/
def maxDuration : Duration := 9223372036854775807

/-- The smallest `time.Duration`, `-1 << 63`. -/
def minDuration : Duration := -9223372036854775808

/-- The struct `DurationTimeout`: one cooldown rule of the configuration.
`TimeoutSecond` is the number the `float64` field denotes. -/
structure DurationTimeout where
  Type_ : String
  TimeoutSecond : ℚ
deriving DecidableEq

/-- The struct `Config`. -/
structure Config where
  BotToken : String
  ChatId : Int
  Tokens : List String
  DurationTimeout : List DurationTimeout

/-- The struct `Notify`. -/
structure Notify where
  Id : Int
  Type_ : String
  Time : Time
  Message : String
deriving DecidableEq

/-- The struct `NotifyRequest`: the decoded request body. -/
structure NotifyRequest where
  Type_ : String
  Message : String
  Token : String
deriving DecidableEq

/-- What the outside world answers while one request is handled. -/
structure World where
  /-- The reading of `time.Now()` inside `checkTimeoutNotify` (line 193). -/
  checkNow : Time
  /-- The reading of `time.Now()` that stamps the new `Notify` (line 99). -/
  notifyNow : Time
  /-- The error returned by `tgBot.Send`, if it returns one. -/
  sendErr : Option String
  /-- The driver fails the `SELECT` with an error other than `sql.ErrNoRows`. -/
  queryErr : Bool
  /-- The driver fails the `INSERT`. -/
  execErr : Bool

/-! ## float64 arithmetic -/

/-- The integer nearest to `q`, the even one of the two when `q` lies halfway. -/
def roundHalfEven (q : ℚ) : Int :=
  let f := ⌊q⌋
  let r := q - f
  if r < 1 / 2 then f else if 1 / 2 < r then f + 1 else if f % 2 = 0 then f else f + 1

/-- The `float64` nearest to `q` (round to nearest, ties to even): `q` is
scaled by a power of two into the range of 53-bit integers, rounded there and
scaled back.  The values rounded in this program are 0 or lie between 2^-30
and 2^34 in size, far from the exponent limits of the format. -/
def roundFloat64 (q : ℚ) : ℚ :=
  if q = 0 then 0
  else
    let e := Int.log 2 |q|
    (roundHalfEven (q / 2 ^ (e - 52)) : ℚ) * 2 ^ (e - 52)

/-- The conversion `float64(i)` of an `int64`. -/
def float64 (i : Int) : ℚ := roundFloat64 i

/-- The `float64` sum `x + y`. -/
def fadd (x y : ℚ) : ℚ := roundFloat64 (x + y)

/-- The `float64` quotient `x / y`. -/
def fdiv (x y : ℚ) : ℚ := roundFloat64 (x / y)

/-! ## The Go library calls the program relies on -/

/-- The zero `time.Time`: January 1, year 1, 00:00:00 UTC. -/
def zeroTime : Time := { unixNano := -62135596800 * Second, offset := 0 }

/-- The zero value `Notify{}`. -/
def zeroNotify : Notify := { Id := 0, Type_ := "", Time := zeroTime, Message := "" }

/-- The method `Time.Sub`: the duration `t - u`, or the largest or smallest
`Duration` when the difference does not fit.  A time scanned from the database
carries no monotonic clock reading, so the wall clock instants are subtracted. -/
def Sub (t u : Time) : Duration :=
  if maxDuration < t.unixNano - u.unixNano then maxDuration
  else if t.unixNano - u.unixNano < minDuration then minDuration
  else t.unixNano - u.unixNano

/-- The method `Duration.Seconds`:
`sec := d / Second; nsec := d % Second; return float64(sec) + float64(nsec)/1e9`,
where `/` and `%` on integers truncate toward zero. -/
def Seconds (d : Duration) : ℚ :=
  let sec := Int.tdiv d Second
  let nsec := Int.tmod d Second
  fadd (float64 sec) (fdiv (float64 nsec) 1000000000)

/-- A text in the layout `time.RFC3339`, `2006-01-02T15:04:05Z07:00`, held by
its two parts: `wall` is the date and clock time it shows, counted in seconds
from `1970-01-01T00:00:00`, and `zone` is the offset it shows, in minutes (`Z`
when 0).  The layout has no fraction of a second. -/
structure RFC3339 where
  wall : Int
  zone : Int
deriving DecidableEq

/-- The text `t.Format(time.RFC3339)`: the local date and clock time at the
instant, cut to the second, and the offset of the location. -/
def FormatRFC3339 (t : Time) : RFC3339 :=
  { wall := t.unixNano / Second + 60 * t.offset, zone := t.offset }

/-- The `time.Time` the driver parses from the text of a `DATETIME` column. -/
def RFC3339.parse (s : RFC3339) : Time :=
  { unixNano := (s.wall - 60 * s.zone) * Second, offset := s.zone }

/-- The place of a text among the `RFC3339` texts compared byte by byte, as
SQLite compares values of type TEXT.  For the years 0000 to 9999 every field
before the offset has a fixed width, so the date and clock time decide first;
then the first byte of the offset, `+` before `-` before `Z`; then its digits. -/
def sortKey (s : RFC3339) : ℤ ×ₗ ℤ ×ₗ ℤ :=
  toLex (s.wall, toLex (if 0 < s.zone then 0 else if s.zone < 0 then 1 else 2, |s.zone|))

/-! ## The table `notifies` -/

/-- A row of the table `notifies`: `type` is the text read back from the column
`type STRING`, `time` the text held in the column `time DATETIME`. -/
structure Row where
  id : Int
  type : String
  time : RFC3339
  message : String
deriving DecidableEq

/-- The rows of the table `notifies`, oldest rowid first. -/
abbrev Table := List Row

/-- An instance of the conversion the column `type STRING` applies: a text made
of decimal digits (at most 18) with an optional minus sign is stored as that
integer and reads back without leading zeros; any other text is kept.  SQLite
converts further spellings of numbers (a plus sign, a fraction, an exponent,
surrounding blanks, longer integers), so this instance is used only on texts
made of digits and on texts that begin with a letter, where it agrees with
SQLite. -/
def decimalInteger (s : String) : String :=
  let digits :=
    match s.data with
    | '-' :: rest => rest
    | cs => cs
  if digits ≠ [] ∧ digits.all Char.isDigit ∧ digits.length ≤ 18 then
    match digits.dropWhile (fun c => c == '0') with
    | [] => "0"
    | ds =>
      String.mk ((match s.data with
        | '-' :: _ => ['-']
        | _ => []) ++ ds)
  else s

/-- The first row of `ORDER BY time desc`: a row whose `time` text is greatest.
Rows with equal texts denote the same time, so it does not matter which of
them is taken; here it is the one with the smallest rowid. -/
def orderByTimeDescLimit1 : List Row → Option Row
  | [] => none
  | n :: rest =>
    match orderByTimeDescLimit1 rest with
    | none => some n
    | some m => if sortKey n.time < sortKey m.time then some m else some n

/-- The outcome of `QueryRow(...).Scan(...)`. -/
inductive ScanResult where
  | row (n : Notify)
  | errNoRows
  | otherErr
deriving DecidableEq

/-- The `Notify` that `Scan` fills from a row. -/
def scanRow (r : Row) : Notify :=
  { Id := r.id, Type_ := r.type, Time := r.time.parse, Message := r.message }

/-- The query of `fetchLastOfType`:
`SELECT id, type, time, message FROM notifies WHERE type=? ORDER BY time desc LIMIT 1`
scanned into a `Notify`.  The column `type` has NUMERIC affinity, so the
parameter is converted by `numeric` before it is compared with the stored
values.  With `queryErr` the driver reports an error other than
`sql.ErrNoRows` and nothing is scanned. -/
def QueryRowScan (numeric : String → String) (db : Table) (queryErr : Bool)
    (notifyType : String) : ScanResult :=
  if queryErr then .otherErr
  else
    match orderByTimeDescLimit1 (db.filter (fun r => r.type == numeric notifyType)) with
    | none => .errNoRows
    | some r => .row (scanRow r)

/-- The rowid SQLite gives a row inserted with `NULL` as its `INTEGER PRIMARY KEY`:
one more than the largest rowid in the table. -/
def nextRowid (db : Table) : Int := db.foldl (fun m r => max m r.id) 0 + 1

/-! ## The program (main.go, lines 78-114 and 150-198) -/

/-- The loop of `checkRequestToken` over `config.Tokens`. -/
def checkRequestTokenLoop (token : String) : List String → Bool
  | [] => false
  | validTokens :: rest =>
    if validTokens == token then true else checkRequestTokenLoop token rest

/-- The function `checkRequestToken`. -/
def checkRequestToken (config : Config) (token : String) : Bool :=
  checkRequestTokenLoop token config.Tokens

/-- The function `fetchLastOfType`: `nil` exactly when `Scan` returns
`sql.ErrNoRows`; on any other error the zero-valued `notify` is returned.  The
comment in the source speaks of a query by id; the statement selects by type. -/
def fetchLastOfType (numeric : String → String) (db : Table) (w : World)
    (notifyType : String) : Option Notify :=
  match QueryRowScan numeric db w.queryErr notifyType with
  | .errNoRows => none
  | .row n => some n
  | .otherErr => some zeroNotify

/-- The function `saveNotify`: the table after
`INSERT INTO notifies VALUES(NULL,?,?,?)` with the type, the time formatted
as `time.RFC3339` and the message, and the returned `(int, error)`. -/
def saveNotify (numeric : String → String) (db : Table) (w : World) (notify : Notify) :
    Table × Except String Int :=
  if w.execErr then (db, .error "exec")
  else
    let id := nextRowid db
    (db ++ [{ id := id, type := numeric notify.Type_, time := FormatRFC3339 notify.Time,
              message := notify.Message }], .ok id)

/-- The loop of `checkTimeoutNotify` over `config.DurationTimeout`. -/
def checkTimeoutNotifyLoop (numeric : String → String) (db : Table) (w : World)
    (typeNotify : String) : List DurationTimeout → Bool
  | [] => true
  | timeout :: rest =>
    if timeout.Type_ == typeNotify then
      match fetchLastOfType numeric db w typeNotify with
      | none => true
      | some lastNotify =>
        decide (Seconds (Sub w.checkNow lastNotify.Time) > timeout.TimeoutSecond)
    else checkTimeoutNotifyLoop numeric db w typeNotify rest

/-- The function `checkTimeoutNotify`. -/
def checkTimeoutNotify (numeric : String → String) (config : Config) (db : Table) (w : World)
    (typeNotify : String) : Bool :=
  checkTimeoutNotifyLoop numeric db w typeNotify config.DurationTimeout

/-- An HTTP response: the status code and the body written; the headers are
left out. -/
structure Response where
  status : Nat
  body : String
deriving DecidableEq

/-- The call `http.Error(w, error, code)`: the status `code` and the line `error`. -/
def httpError (error : String) (code : Nat) : Response :=
  { status := code, body := error ++ "\n" }

/-- The calls `handler` makes, in the order it makes them. -/
inductive Call where
  | checkRequestToken (token : String)
  | checkTimeoutNotify (typeNotify : String)
  | Send (chatId : Int) (text : String)
  | Println (text : String) (err : String)
  | saveNotify (notify : Notify)
deriving DecidableEq

/-- What one run of `handler` leaves behind. -/
structure Outcome where
  response : Response
  db : Table
  calls : List Call

/-- The response written when the throttle check fails (lines 93-95). -/
def throttledResponse : Response :=
  { status := 302, body := "\x7b\"status\":\"notification timeout\"\x7d" }

/-- The response written at the end of `handler` (lines 111-113). -/
def createdResponse : Response :=
  { status := 201, body := "\x7b\"status\": \"notified\"\x7d" }

/-- The function `handler`; `body` is the result of decoding the request body
with unknown fields disallowed. -/
def handler (numeric : String → String) (config : Config) (w : World) (db : Table)
    (body : Except String NotifyRequest) : Outcome :=
  match body with
  | .error err => { response := httpError err 400, db := db, calls := [] }
  | .ok notifyRequest =>
    if !checkRequestToken config notifyRequest.Token then
      { response := httpError "Invalid token" 403, db := db,
        calls := [.checkRequestToken notifyRequest.Token] }
    else if !checkTimeoutNotify numeric config db w notifyRequest.Type_ then
      { response := throttledResponse, db := db,
        calls := [.checkRequestToken notifyRequest.Token,
                  .checkTimeoutNotify notifyRequest.Type_] }
    else
      let notify : Notify :=
        { Id := 0, Type_ := notifyRequest.Type_, Message := notifyRequest.Message,
          Time := w.notifyNow }
      let logged : List Call :=
        match w.sendErr with
        | some err => [.Println "не удалось отправить сообщение " err]
        | none => []
      { response := createdResponse, db := (saveNotify numeric db w notify).1,
        calls := [.checkRequestToken notifyRequest.Token,
                  .checkTimeoutNotify notifyRequest.Type_,
                  .Send config.ChatId notify.Message] ++ logged ++ [.saveNotify notify] }

/-! ## Concrete inputs used to instantiate the theorems -/

/-- A configuration with two tokens and one rule: `type_` with cooldown `c`. -/
def ruleConfig (type_ : String) (c : ℚ) : Config :=
  { BotToken := "bot", ChatId := 7, Tokens := ["valid1", "valid2"],
    DurationTimeout := [{ Type_ := type_, TimeoutSecond := c }] }

/-- A configuration with two tokens and the rule "disk-full": 60 s. -/
def exampleConfig : Config := ruleConfig "disk-full" 60

/-- The instant `ns` nanoseconds after the epoch, in UTC. -/
def utc (ns : Int) : Time := { unixNano := ns, offset := 0 }

/-- A world whose clock reads `t` seconds (UTC), with working storage. -/
def exampleWorld (t : Int) (sendErr : Option String) : World :=
  { checkNow := utc (t * Second), notifyNow := utc (t * Second), sendErr := sendErr,
    queryErr := false, execErr := false }

/-- A world whose clock reads `ns` nanoseconds (UTC) and whose driver fails as
given. -/
def faultyWorld (ns : Int) (queryErr execErr : Bool) : World :=
  { checkNow := utc ns, notifyNow := utc ns, sendErr := none, queryErr := queryErr,
    execErr := execErr }

/-- A stored "disk-full" row written at `t` seconds in UTC. -/
def exampleRow (id : Int) (t : Int) : Row :=
  { id := id, type := "disk-full", time := { wall := t, zone := 0 }, message := "disk is full" }

/-- The scenario of the specification: event A at t = 0 on an empty table. -/
def scenarioA (numeric : String → String) (m1 : String) (e1 : Option String) : Outcome :=
  handler numeric exampleConfig (exampleWorld 0 e1) [] (.ok ⟨"disk-full", m1, "valid1"⟩)

/-- Event B of the same type at t = 30, on the table event A left. -/
def scenarioB (numeric : String → String) (m1 m2 : String) (e1 e2 : Option String) : Outcome :=
  handler numeric exampleConfig (exampleWorld 30 e2) (scenarioA numeric m1 e1).db
    (.ok ⟨"disk-full", m2, "valid1"⟩)

/-- Event C of the same type at t = 61, on the table event B left. -/
def scenarioC (numeric : String → String) (m1 m2 m3 : String) (e1 e2 e3 : Option String) :
    Outcome :=
  handler numeric exampleConfig (exampleWorld 61 e3) (scenarioB numeric m1 m2 e1 e2).db
    (.ok ⟨"disk-full", m3, "valid1"⟩)

/-! ## Lemmas about float64 rounding -/

theorem roundHalfEven_of_abs_sub_lt (q : ℚ) (n : Int) (h : |q - n| < 1 / 2) :
    roundHalfEven q = n := by
  have h1 := abs_lt.1 h
  unfold roundHalfEven
  by_cases hge : (n : ℚ) ≤ q
  · have hf : ⌊q⌋ = n := by
      rw [Int.floor_eq_iff]
      constructor
      · exact hge
      · linarith [h1.2]
    simp only [hf]
    rw [if_pos h1.2]
  · have hf : ⌊q⌋ = n - 1 := by
      rw [Int.floor_eq_iff]
      push_cast
      constructor <;> linarith [h1.1]
    simp only [hf]
    have h2 : ¬ (q - ((n - 1 : ℤ) : ℚ) < 1 / 2) := by push_cast; linarith [h1.1]
    have h3 : (1 : ℚ) / 2 < q - ((n - 1 : ℤ) : ℚ) := by push_cast; linarith [h1.1]
    rw [if_neg h2, if_pos h3]
    omega

/-- The value of `roundFloat64` at a number whose binade and rounded
significand are known. -/
theorem roundFloat64_of_bounds (q : ℚ) (e n : Int) (hq : q ≠ 0)
    (h1 : (2 : ℚ) ^ e ≤ |q|) (h2 : |q| < (2 : ℚ) ^ (e + 1))
    (hn : |q / 2 ^ (e - 52) - n| < 1 / 2) :
    roundFloat64 q = n * 2 ^ (e - 52) := by
  have hpos : 0 < |q| := abs_pos.2 hq
  have hlog : Int.log 2 |q| = e := by
    have a : e ≤ Int.log 2 |q| :=
      (Int.zpow_le_iff_le_log (by norm_num) hpos).1 (by exact_mod_cast h1)
    have b : Int.log 2 |q| < e + 1 :=
      (Int.lt_zpow_iff_log_lt (by norm_num) hpos).1 (by exact_mod_cast h2)
    omega
  unfold roundFloat64
  simp only [hq, if_false, hlog]
  rw [roundHalfEven_of_abs_sub_lt _ n hn]

/-- A number with a significand below 2^53 is a `float64` and rounds to itself. -/
theorem roundFloat64_fixed (n E : Int) (hn : |n| < 2 ^ 53) :
    roundFloat64 (n * 2 ^ E) = n * 2 ^ E := by
  by_cases h0 : n = 0
  · simp [h0, roundFloat64]
  have hq : (n : ℚ) * 2 ^ E ≠ 0 := by
    have : (n : ℚ) ≠ 0 := by exact_mod_cast h0
    positivity
  have hpos : 0 < |(n : ℚ) * 2 ^ E| := abs_pos.2 hq
  have habs : |(n : ℚ) * 2 ^ E| = |(n : ℚ)| * 2 ^ E := by
    rw [abs_mul, abs_of_pos (zpow_pos (by norm_num : (0 : ℚ) < 2) E)]
  have hle := Int.zpow_log_le_self (b := 2) (by norm_num) hpos
  have hnlt : |(n : ℚ)| < 2 ^ (53 : ℤ) := by
    rw [← Int.cast_abs]
    calc ((|n| : ℤ) : ℚ) < ((2 ^ 53 : ℤ) : ℚ) := by exact_mod_cast hn
      _ = 2 ^ (53 : ℤ) := by norm_num
  have hlt : ((2 : ℕ) : ℚ) ^ Int.log 2 |(n : ℚ) * 2 ^ E| < (2 : ℚ) ^ (53 + E) := by
    calc ((2 : ℕ) : ℚ) ^ Int.log 2 |(n : ℚ) * 2 ^ E| ≤ |(n : ℚ) * 2 ^ E| := hle
      _ = |(n : ℚ)| * 2 ^ E := habs
      _ < 2 ^ (53 : ℤ) * 2 ^ E := by
          apply mul_lt_mul_of_pos_right hnlt (zpow_pos (by norm_num) E)
      _ = 2 ^ (53 + E) := by rw [zpow_add₀ (by norm_num)]
  have he : Int.log 2 |(n : ℚ) * 2 ^ E| < 53 + E := by
    have h2 : ((2 : ℕ) : ℚ) = 2 := by norm_num
    rw [h2] at hlt
    exact (zpow_lt_zpow_iff_right₀ (by norm_num : (1 : ℚ) < 2)).1 hlt
  unfold roundFloat64
  simp only [hq, if_false]
  generalize Int.log 2 |(n : ℚ) * 2 ^ E| = L at he ⊢
  obtain ⟨k, hk⟩ : ∃ k : ℕ, (k : ℤ) = 52 + E - L := ⟨(52 + E - L).toNat, by omega⟩
  have hE : E = (L - 52) + k := by omega
  subst hE
  have h2ne : (2 : ℚ) ^ (L - 52) ≠ 0 := zpow_ne_zero _ (by norm_num)
  have hdiv : (n : ℚ) * 2 ^ (L - 52 + (k : ℤ)) / 2 ^ (L - 52) = ((n * 2 ^ k : ℤ) : ℚ) := by
    push_cast
    rw [zpow_add₀ (by norm_num : (2 : ℚ) ≠ 0), zpow_natCast]
    field_simp
    ring
  rw [hdiv, roundHalfEven_of_abs_sub_lt _ (n * 2 ^ k) (by simp)]
  push_cast
  rw [zpow_add₀ (by norm_num : (2 : ℚ) ≠ 0), zpow_natCast]
  ring

theorem roundFloat64_intCast (n : Int) (hn : |n| < 2 ^ 53) : roundFloat64 (n : ℚ) = n := by
  have := roundFloat64_fixed n 0 hn
  simpa using this

/-- A whole number of seconds converts exactly. -/
theorem Seconds_whole (k : Int) (hk : |k| < 2 ^ 53) : Seconds (k * 1000000000) = k := by
  unfold Seconds fadd fdiv float64 Second
  rw [Int.mul_tdiv_cancel _ (by norm_num), Int.mul_tmod_left]
  dsimp only
  have h0 : roundFloat64 ((0 : ℤ) : ℚ) = 0 := by simp [roundFloat64]
  rw [h0, zero_div]
  have h00 : roundFloat64 (0 : ℚ) = 0 := by simp [roundFloat64]
  rw [h00, add_zero, roundFloat64_intCast k hk, roundFloat64_intCast k hk]

/-- A whole number of seconds and a half converts exactly. -/
theorem Seconds_half (k : Int) (h0 : 0 ≤ k) (hk : k < 2 ^ 52) :
    Seconds (k * 1000000000 + 500000000) = k + 1 / 2 := by
  unfold Seconds fadd fdiv float64 Second
  have hd : Int.tdiv (k * 1000000000 + 500000000) 1000000000 = k := by
    rw [Int.tdiv_eq_ediv (by omega) (by norm_num)]
    omega
  have hm : Int.tmod (k * 1000000000 + 500000000) 1000000000 = 500000000 := by
    rw [Int.tmod_eq_emod (by omega) (by norm_num)]
    omega
  rw [hd, hm]
  dsimp only
  rw [roundFloat64_intCast k (by rw [abs_of_nonneg h0]; omega),
    roundFloat64_intCast 500000000 (by norm_num)]
  have hhalf : roundFloat64 (((500000000 : ℤ) : ℚ) / 1000000000) = 1 / 2 := by
    have := roundFloat64_fixed 1 (-1) (by norm_num)
    norm_num at this ⊢
    exact this
  rw [hhalf]
  have := roundFloat64_fixed (2 * k + 1) (-1) (by rw [abs_of_nonneg (by omega)]; omega)
  have e : ((2 * k + 1 : ℤ) : ℚ) * 2 ^ (-1 : ℤ) = k + 1 / 2 := by
    push_cast
    rw [zpow_neg_one]
    ring
  rw [e] at this
  exact this

theorem floor_le_roundHalfEven (q : ℚ) : ⌊q⌋ ≤ roundHalfEven q := by
  unfold roundHalfEven
  dsimp only
  split_ifs <;> omega

theorem roundHalfEven_le_floor_add_one (q : ℚ) : roundHalfEven q ≤ ⌊q⌋ + 1 := by
  unfold roundHalfEven
  dsimp only
  split_ifs <;> omega

theorem roundHalfEven_mono {a b : ℚ} (h : a ≤ b) : roundHalfEven a ≤ roundHalfEven b := by
  have hf : ⌊a⌋ ≤ ⌊b⌋ := Int.floor_mono h
  rcases lt_or_eq_of_le hf with hlt | heq
  · calc roundHalfEven a ≤ ⌊a⌋ + 1 := roundHalfEven_le_floor_add_one a
      _ ≤ ⌊b⌋ := hlt
      _ ≤ roundHalfEven b := floor_le_roundHalfEven b
  · unfold roundHalfEven
    dsimp only
    rw [heq]
    have hr : a - (⌊b⌋ : ℚ) ≤ b - (⌊b⌋ : ℚ) := by linarith
    split_ifs <;> first | omega | linarith

theorem roundHalfEven_intCast (n : Int) : roundHalfEven (n : ℚ) = n :=
  roundHalfEven_of_abs_sub_lt _ n (by simp)


theorem roundFloat64_pos_bounds (q : ℚ) (hq : 0 < q) :
    (2 : ℚ) ^ (Int.log 2 q) ≤ roundFloat64 q ∧ roundFloat64 q ≤ 2 ^ (Int.log 2 q + 1) := by
  have h1 : ((2 : ℕ) : ℚ) ^ Int.log 2 q ≤ q := Int.zpow_log_le_self (by norm_num) hq
  have h2 : q < ((2 : ℕ) : ℚ) ^ (Int.log 2 q + 1) := Int.lt_zpow_succ_log_self (by norm_num) q
  have h2' : ((2 : ℕ) : ℚ) = 2 := by norm_num
  rw [h2'] at h1 h2
  unfold roundFloat64
  rw [if_neg (ne_of_gt hq), abs_of_pos hq]
  dsimp only
  generalize Int.log 2 q = e at h1 h2 ⊢
  have hs : (0 : ℚ) < 2 ^ (e - 52) := zpow_pos (by norm_num) _
  have he : (2 : ℚ) ^ e = 2 ^ (52 : ℕ) * 2 ^ (e - 52) := by
    rw [← zpow_natCast, ← zpow_add₀ (by norm_num : (2 : ℚ) ≠ 0)]
    congr 1
    omega
  have he1 : (2 : ℚ) ^ (e + 1) = 2 ^ (53 : ℕ) * 2 ^ (e - 52) := by
    rw [← zpow_natCast, ← zpow_add₀ (by norm_num : (2 : ℚ) ≠ 0)]
    congr 1
    omega
  have hm1 : (((2 ^ 52 : ℤ)) : ℚ) ≤ q / 2 ^ (e - 52) := by
    rw [le_div_iff₀ hs, show (((2 ^ 52 : ℤ)) : ℚ) = 2 ^ (52 : ℕ) by norm_num, ← he]
    exact h1
  have hm2 : q / 2 ^ (e - 52) ≤ (((2 ^ 53 : ℤ)) : ℚ) := by
    rw [div_le_iff₀ hs, show (((2 ^ 53 : ℤ)) : ℚ) = 2 ^ (53 : ℕ) by norm_num, ← he1]
    exact le_of_lt h2
  have r1 := roundHalfEven_mono hm1
  have r2 := roundHalfEven_mono hm2
  rw [roundHalfEven_intCast] at r1 r2
  constructor
  · rw [he]
    apply mul_le_mul_of_nonneg_right _ (le_of_lt hs)
    exact_mod_cast r1
  · rw [he1]
    apply mul_le_mul_of_nonneg_right _ (le_of_lt hs)
    exact_mod_cast r2

theorem roundFloat64_nonneg (q : ℚ) (hq : 0 ≤ q) : 0 ≤ roundFloat64 q := by
  rcases eq_or_lt_of_le hq with h | h
  · rw [← h]; simp [roundFloat64]
  · exact le_trans (le_of_lt (zpow_pos (by norm_num) _)) (roundFloat64_pos_bounds q h).1

theorem roundFloat64_nonpos (q : ℚ) (hq : q ≤ 0) : roundFloat64 q ≤ 0 := by
  unfold roundFloat64
  split_ifs with h0
  · exact le_refl _
  · dsimp only
    have hs : (0 : ℚ) < 2 ^ (Int.log 2 |q| - 52) := zpow_pos (by norm_num) _
    have hm : q / 2 ^ (Int.log 2 |q| - 52) ≤ ((0 : ℤ) : ℚ) := by
      rw [div_le_iff₀ hs]
      simpa using hq
    have r := roundHalfEven_mono hm
    rw [roundHalfEven_intCast] at r
    have : ((roundHalfEven (q / 2 ^ (Int.log 2 |q| - 52)) : ℤ) : ℚ) ≤ 0 := by exact_mod_cast r
    exact mul_nonpos_of_nonpos_of_nonneg this (le_of_lt hs)

theorem roundFloat64_mono_of_nonneg {a b : ℚ} (ha : 0 ≤ a) (h : a ≤ b) :
    roundFloat64 a ≤ roundFloat64 b := by
  rcases eq_or_lt_of_le ha with h0 | hapos
  · rw [← h0]
    have : roundFloat64 0 = 0 := by simp [roundFloat64]
    rw [this]
    exact roundFloat64_nonneg b (le_trans ha h)
  have hbpos : 0 < b := lt_of_lt_of_le hapos h
  have hlog : Int.log 2 a ≤ Int.log 2 b := Int.log_mono_right hapos h
  rcases lt_or_eq_of_le hlog with hlt | heq
  · calc roundFloat64 a ≤ 2 ^ (Int.log 2 a + 1) := (roundFloat64_pos_bounds a hapos).2
      _ ≤ 2 ^ (Int.log 2 b) := zpow_le_zpow_right₀ (by norm_num) (by omega)
      _ ≤ roundFloat64 b := (roundFloat64_pos_bounds b hbpos).1
  · unfold roundFloat64
    rw [if_neg (ne_of_gt hapos), if_neg (ne_of_gt hbpos), abs_of_pos hapos, abs_of_pos hbpos]
    dsimp only
    rw [heq]
    have hs : (0 : ℚ) < 2 ^ (Int.log 2 b - 52) := zpow_pos (by norm_num) _
    apply mul_le_mul_of_nonneg_right _ (le_of_lt hs)
    have : a / 2 ^ (Int.log 2 b - 52) ≤ b / 2 ^ (Int.log 2 b - 52) :=
      div_le_div_of_nonneg_right h (le_of_lt hs)
    exact_mod_cast roundHalfEven_mono this


/-- A positive number that rounding leaves unchanged has a significand below
2^53. -/
theorem float64_form (c : ℚ) (hc : 0 < c) (hfix : roundFloat64 c = c) :
    ∃ n E : ℤ, 0 < n ∧ n < 2 ^ 53 ∧ c = n * 2 ^ E := by
  have h2 : c < ((2 : ℕ) : ℚ) ^ (Int.log 2 c + 1) := Int.lt_zpow_succ_log_self (by norm_num) c
  rw [show ((2 : ℕ) : ℚ) = 2 by norm_num] at h2
  have hdef : roundFloat64 c =
      (roundHalfEven (c / 2 ^ (Int.log 2 c - 52)) : ℚ) * 2 ^ (Int.log 2 c - 52) := by
    unfold roundFloat64
    rw [if_neg (ne_of_gt hc), abs_of_pos hc]
  rw [hfix] at hdef
  generalize Int.log 2 c = e at h2 hdef
  generalize roundHalfEven (c / 2 ^ (e - 52)) = N at hdef
  have hs : (0 : ℚ) < 2 ^ (e - 52) := zpow_pos (by norm_num) _
  have he1 : (2 : ℚ) ^ (e + 1) = 2 ^ (53 : ℕ) * 2 ^ (e - 52) := by
    rw [← zpow_natCast, ← zpow_add₀ (by norm_num : (2 : ℚ) ≠ 0)]
    congr 1
    omega
  refine ⟨N, e - 52, ?_, ?_, hdef⟩
  · have : (0 : ℚ) < (N : ℚ) := by
      by_contra hneg
      have : (N : ℚ) * 2 ^ (e - 52) ≤ 0 :=
        mul_nonpos_of_nonpos_of_nonneg (not_lt.1 hneg) (le_of_lt hs)
      linarith
    exact_mod_cast this
  · have : (N : ℚ) * 2 ^ (e - 52) < 2 ^ (53 : ℕ) * 2 ^ (e - 52) := by
      rw [← hdef, ← he1]; exact h2
    have h3 : (N : ℚ) < 2 ^ (53 : ℕ) := lt_of_mul_lt_mul_right this (le_of_lt hs)
    exact_mod_cast h3

theorem Seconds_nonpos (d : Int) (hd : d ≤ 0) : Seconds d ≤ 0 := by
  have hsec : Int.tdiv d 1000000000 ≤ 0 := by
    have : d = -(-d) := by omega
    rw [this, Int.neg_tdiv, Int.tdiv_eq_ediv (by omega) (by norm_num)]
    omega
  have hnsec : Int.tmod d 1000000000 ≤ 0 := by
    have h1 := Int.tmod_add_tdiv d 1000000000
    have h2 : Int.tdiv d 1000000000 = -((-d) / 1000000000) := by
      have : d = -(-d) := by omega
      rw [this, Int.neg_tdiv, Int.tdiv_eq_ediv (by omega) (by norm_num)]
      simp
    rw [h2] at h1
    omega
  unfold Seconds fadd fdiv float64 Second
  dsimp only
  apply roundFloat64_nonpos
  have a : roundFloat64 ((Int.tdiv d 1000000000 : ℤ) : ℚ) ≤ 0 :=
    roundFloat64_nonpos _ (by exact_mod_cast hsec)
  have b : roundFloat64 ((Int.tmod d 1000000000 : ℤ) : ℚ) ≤ 0 :=
    roundFloat64_nonpos _ (by exact_mod_cast hnsec)
  have c : roundFloat64 (roundFloat64 ((Int.tmod d 1000000000 : ℤ) : ℚ) / 1000000000) ≤ 0 :=
    roundFloat64_nonpos _ (div_nonpos_of_nonpos_of_nonneg b (by norm_num))
  linarith

/-- `Duration.Seconds` never exceeds a non-negative `float64` that the exact
number of seconds does not exceed. -/
theorem Seconds_le_of_le (d : Int) (c : ℚ) (hd : d ≤ maxDuration) (hc0 : 0 ≤ c)
    (hfix : roundFloat64 c = c) (h : (d : ℚ) / 1000000000 ≤ c) : Seconds d ≤ c := by
  rcases le_or_lt d 0 with hneg | hpos
  · exact le_trans (Seconds_nonpos d hneg) hc0
  unfold maxDuration at hd
  have hsec : Int.tdiv d 1000000000 = d / 1000000000 :=
    Int.tdiv_eq_ediv (by omega) (by norm_num)
  have hnsec : Int.tmod d 1000000000 = d % 1000000000 :=
    Int.tmod_eq_emod (by omega) (by norm_num)
  have hs0 : 0 ≤ d / 1000000000 := by omega
  have hs1 : d / 1000000000 ≤ 9223372036 := by omega
  have hn0 : 0 ≤ d % 1000000000 := by omega
  have hn1 : d % 1000000000 < 1000000000 := by omega
  have hsplit : (d : ℚ) = ((d / 1000000000 : ℤ) : ℚ) * 1000000000 + ((d % 1000000000 : ℤ) : ℚ) := by
    have : d = d / 1000000000 * 1000000000 + d % 1000000000 := by omega
    exact_mod_cast this
  unfold Seconds fadd fdiv float64 Second
  dsimp only
  rw [hsec, hnsec, roundFloat64_intCast _ (by rw [abs_of_nonneg hs0]; omega),
    roundFloat64_intCast _ (by rw [abs_of_nonneg hn0]; omega)]
  generalize d / 1000000000 = sec at hs0 hs1 hsplit
  generalize d % 1000000000 = nsec at hn0 hn1 hsplit
  have hf0 : (0 : ℚ) ≤ (nsec : ℚ) / 1000000000 := by
    apply div_nonneg _ (by norm_num)
    exact_mod_cast hn0
  have hx : (sec : ℚ) + (nsec : ℚ) / 1000000000 ≤ c := by
    have : (d : ℚ) / 1000000000 = (sec : ℚ) + (nsec : ℚ) / 1000000000 := by
      rw [hsplit]; field_simp
    rw [← this]; exact h
  have hrf0 : 0 ≤ roundFloat64 ((nsec : ℚ) / 1000000000) := roundFloat64_nonneg _ hf0
  have hsecq : (0 : ℚ) ≤ (sec : ℚ) := by exact_mod_cast hs0
  have hK : (sec : ℚ) + roundFloat64 ((nsec : ℚ) / 1000000000) ≤ c := by
    by_contra hcon
    have hcon := not_le.1 hcon
    have hy0 : 0 ≤ c - sec := by linarith
    have hfy : (nsec : ℚ) / 1000000000 ≤ c - sec := by linarith
    have hyr : c - sec < roundFloat64 ((nsec : ℚ) / 1000000000) := by linarith
    have hyfix : roundFloat64 (c - sec) = c - sec := by
      rcases eq_or_lt_of_le hc0 with hc00 | hcpos
      · have : c - (sec : ℚ) = 0 := by linarith
        rw [this]; simp [roundFloat64]
      obtain ⟨n, E, hn0', hn1', hcn⟩ := float64_form c hcpos hfix
      rcases le_or_lt 0 E with hE | hE
      · obtain ⟨k, hk⟩ : ∃ k : ℕ, (k : ℤ) = E := ⟨E.toNat, by omega⟩
        have hci : c - (sec : ℚ) = ((n * 2 ^ k - sec : ℤ) : ℚ) := by
          rw [hcn, ← hk, zpow_natCast]; push_cast; ring
        have hone : roundFloat64 ((nsec : ℚ) / 1000000000) ≤ 1 := by
          have h1 : (nsec : ℚ) / 1000000000 ≤ 1 := by
            rw [div_le_iff₀ (by norm_num)]
            have : (nsec : ℚ) < 1000000000 := by exact_mod_cast hn1
            linarith
          have := roundFloat64_mono_of_nonneg hf0 h1
          have e1 : roundFloat64 (1 : ℚ) = 1 := by
            have := roundFloat64_intCast 1 (by norm_num)
            simpa using this
          rw [e1] at this
          exact this
        have hlt1 : ((n * 2 ^ k - sec : ℤ) : ℚ) < 1 := by rw [← hci]; linarith
        have hge0 : (0 : ℚ) ≤ ((n * 2 ^ k - sec : ℤ) : ℚ) := by rw [← hci]; exact hy0
        have hlt1' : (n * 2 ^ k - sec : ℤ) < 1 := by exact_mod_cast hlt1
        have hge0' : (0 : ℤ) ≤ (n * 2 ^ k - sec : ℤ) := by exact_mod_cast hge0
        rw [hci]
        exact roundFloat64_intCast _ (by rw [abs_of_nonneg hge0']; omega)
      · obtain ⟨k, hk⟩ : ∃ k : ℕ, (k : ℤ) = -E := ⟨(-E).toNat, by omega⟩
        have hE' : E = -(k : ℤ) := by omega
        have hpk : (0 : ℚ) < 2 ^ k := by positivity
        have hym : c - (sec : ℚ) = ((n - sec * 2 ^ k : ℤ) : ℚ) * 2 ^ E := by
          rw [hcn, hE', zpow_neg, zpow_natCast]
          push_cast
          field_simp
          ring
        have hsE : (0 : ℚ) < 2 ^ E := zpow_pos (by norm_num) _
        have hm0 : (0 : ℤ) ≤ n - sec * 2 ^ k := by
          have : (0 : ℚ) ≤ ((n - sec * 2 ^ k : ℤ) : ℚ) := by
            by_contra hneg
            have := mul_neg_of_neg_of_pos (not_le.1 hneg) hsE
            rw [← hym] at this
            linarith
          exact_mod_cast this
        have hm1 : n - sec * 2 ^ k ≤ n := by
          have : (0 : ℤ) ≤ sec * 2 ^ k := by positivity
          omega
        rw [hym]
        exact roundFloat64_fixed _ E (by rw [abs_of_nonneg hm0]; omega)
    have := roundFloat64_mono_of_nonneg hf0 hfy
    rw [hyfix] at this
    linarith
  have := roundFloat64_mono_of_nonneg (add_nonneg hsecq hrf0) hK
  rw [hfix] at this
  exact this

/-- The same, for the duration `Time.Sub` returns. -/
theorem Seconds_Sub_le_of_le (t u : Time) (c : ℚ) (hc0 : 0 ≤ c) (hfix : roundFloat64 c = c)
    (h : ((t.unixNano - u.unixNano : Int) : ℚ) / 1000000000 ≤ c) :
    Seconds (Sub t u) ≤ c := by
  unfold Sub
  split_ifs with h1 h2
  · apply Seconds_le_of_le _ _ (le_refl _) hc0 hfix
    have h1' : ((maxDuration : Int) : ℚ) < ((t.unixNano - u.unixNano : Int) : ℚ) := by
      exact_mod_cast h1
    have : ((maxDuration : Int) : ℚ) / 1000000000
        ≤ ((t.unixNano - u.unixNano : Int) : ℚ) / 1000000000 :=
      div_le_div_of_nonneg_right (le_of_lt h1') (by norm_num)
    linarith
  · exact le_trans (Seconds_nonpos _ (by unfold minDuration; norm_num)) hc0
  · exact Seconds_le_of_le _ _ (not_lt.1 h1) hc0 hfix h

/-- One nanosecond past 2^24 seconds converts to 2^24 seconds: at that size
neighbouring `float64` values lie 2^-28 s apart. -/
theorem Seconds_boundary : Seconds 16777216000000001 = 16777216 := by
  have hd : Int.tdiv 16777216000000001 1000000000 = 16777216 := by decide
  have hm : Int.tmod 16777216000000001 1000000000 = 1 := by decide
  unfold Seconds fadd fdiv float64 Second
  rw [hd, hm]
  dsimp only
  rw [roundFloat64_intCast 16777216 (by norm_num), roundFloat64_intCast 1 (by norm_num)]
  have h1 : roundFloat64 (((1 : ℤ) : ℚ) / 1000000000) = 4835703278458517 * 2 ^ (-30 - 52 : ℤ) := by
    apply roundFloat64_of_bounds _ (-30) 4835703278458517 (by norm_num)
    · rw [abs_of_pos (by norm_num)]; norm_num
    · rw [abs_of_pos (by norm_num)]; norm_num
    · rw [abs_lt]; constructor <;> norm_num
  rw [h1]
  have h2 : roundFloat64 (((16777216 : ℤ) : ℚ) + 4835703278458517 * 2 ^ (-30 - 52 : ℤ))
      = 4503599627370496 * 2 ^ (24 - 52 : ℤ) := by
    apply roundFloat64_of_bounds _ 24 4503599627370496 (by norm_num)
    · rw [abs_of_pos (by norm_num)]; norm_num
    · rw [abs_of_pos (by norm_num)]; norm_num
    · rw [abs_lt]; constructor <;> norm_num
  rw [h2]
  norm_num

/-- The largest `Duration` in seconds, as `Duration.Seconds` returns it. -/
theorem Seconds_maxDuration : Seconds maxDuration = 4835703278458517 / 524288 := by
  have hd : Int.tdiv 9223372036854775807 1000000000 = 9223372036 := by decide
  have hm : Int.tmod 9223372036854775807 1000000000 = 854775807 := by decide
  unfold Seconds fadd fdiv float64 Second maxDuration
  rw [hd, hm]
  dsimp only
  rw [roundFloat64_intCast 9223372036 (by norm_num),
    roundFloat64_intCast 854775807 (by norm_num)]
  have h1 : roundFloat64 (((854775807 : ℤ) : ℚ) / 1000000000)
      = 7699136011781030 * 2 ^ (-1 - 52 : ℤ) := by
    apply roundFloat64_of_bounds _ (-1) 7699136011781030 (by norm_num)
    · rw [abs_of_pos (by norm_num)]; norm_num
    · rw [abs_of_pos (by norm_num)]; norm_num
    · rw [abs_lt]; constructor <;> norm_num
  rw [h1]
  have h2 : roundFloat64 (((9223372036 : ℤ) : ℚ) + 7699136011781030 * 2 ^ (-1 - 52 : ℤ))
      = 4835703278458517 * 2 ^ (33 - 52 : ℤ) := by
    apply roundFloat64_of_bounds _ 33 4835703278458517 (by norm_num)
    · rw [abs_of_pos (by norm_num)]; norm_num
    · rw [abs_of_pos (by norm_num)]; norm_num
    · rw [abs_lt]; constructor <;> norm_num
  rw [h2]
  norm_num

/-! ## Lemmas about the loops and the query -/

theorem checkRequestTokenLoop_iff_mem (token : String) (tokens : List String) :
    checkRequestTokenLoop token tokens = true ↔ token ∈ tokens := by
  induction tokens with
  | nil => simp [checkRequestTokenLoop]
  | cons validTokens rest ih =>
    by_cases h : validTokens = token
    · simp [checkRequestTokenLoop, h]
    · have h2 : ¬ token = validTokens := fun e => h e.symm
      simp [checkRequestTokenLoop, h, h2, ih]

theorem checkTimeoutNotifyLoop_eq_find (numeric : String → String) (db : Table) (w : World)
    (typeNotify : String) (rules : List DurationTimeout) :
    checkTimeoutNotifyLoop numeric db w typeNotify rules =
      match rules.find? (fun r => r.Type_ == typeNotify) with
      | none => true
      | some timeout =>
        match fetchLastOfType numeric db w typeNotify with
        | none => true
        | some lastNotify =>
          decide (Seconds (Sub w.checkNow lastNotify.Time) > timeout.TimeoutSecond) := by
  induction rules with
  | nil => simp [checkTimeoutNotifyLoop]
  | cons timeout rest ih =>
    by_cases h : timeout.Type_ = typeNotify
    · simp [checkTimeoutNotifyLoop, List.find?, h]
    · have hb : (timeout.Type_ == typeNotify) = false := by simp [h]
      simp [checkTimeoutNotifyLoop, List.find?, hb, ih]

/-- Two texts with the same place in the order are the same text. -/
theorem sortKey_injective (a b : RFC3339) (h : sortKey a = sortKey b) : a = b := by
  unfold sortKey at h
  have h1 := congrArg (fun x => (ofLex x).1) h
  have h2 := congrArg (fun x => (ofLex (ofLex x).2).1) h
  have h3 := congrArg (fun x => (ofLex (ofLex x).2).2) h
  simp only [ofLex_toLex] at h1 h2 h3
  have hz : a.zone = b.zone := by
    by_cases ha : 0 < a.zone
    · by_cases hb : 0 < b.zone
      · rw [abs_of_pos ha, abs_of_pos hb] at h3
        exact h3
      · by_cases hb2 : b.zone < 0
        · simp [ha, hb, hb2] at h2
        · simp [ha, hb, hb2] at h2
    · by_cases ha2 : a.zone < 0
      · by_cases hb : 0 < b.zone
        · simp [ha, ha2, hb] at h2
        · by_cases hb2 : b.zone < 0
          · rw [abs_of_neg ha2, abs_of_neg hb2] at h3
            omega
          · simp [ha, ha2, hb, hb2] at h2
      · have : a.zone = 0 := by omega
        rw [this] at h3 ⊢
        simp only [abs_zero] at h3
        exact (abs_eq_zero.1 h3.symm).symm
  cases a
  cases b
  simp only [RFC3339.mk.injEq]
  exact ⟨h1, hz⟩

theorem orderByTimeDescLimit1_eq_none (rows : List Row) :
    orderByTimeDescLimit1 rows = none ↔ rows = [] := by
  cases rows with
  | nil => simp [orderByTimeDescLimit1]
  | cons n rest =>
    simp only [orderByTimeDescLimit1]
    cases orderByTimeDescLimit1 rest with
    | none => simp
    | some m => by_cases h : sortKey n.time < sortKey m.time <;> simp [h]

theorem orderByTimeDescLimit1_some (rows : List Row) (m : Row)
    (h : orderByTimeDescLimit1 rows = some m) :
    m ∈ rows ∧ ∀ x ∈ rows, sortKey x.time ≤ sortKey m.time := by
  induction rows generalizing m with
  | nil => simp [orderByTimeDescLimit1] at h
  | cons n rest ih =>
    simp only [orderByTimeDescLimit1] at h
    cases hr : orderByTimeDescLimit1 rest with
    | none =>
      rw [hr] at h
      have hnil : rest = [] := (orderByTimeDescLimit1_eq_none rest).1 hr
      simp only [Option.some.injEq] at h
      subst h
      subst hnil
      simp
    | some k =>
      rw [hr] at h
      obtain ⟨hk, hmax⟩ := ih k hr
      by_cases hlt : sortKey n.time < sortKey k.time
      · simp only [hlt, if_true, Option.some.injEq] at h
        subst h
        refine ⟨List.mem_cons_of_mem _ hk, ?_⟩
        intro x hx
        rcases List.mem_cons.1 hx with rfl | hx
        · exact le_of_lt hlt
        · exact hmax x hx
      · simp only [hlt, if_false, Option.some.injEq] at h
        subst h
        refine ⟨List.mem_cons_self _ _, ?_⟩
        intro x hx
        rcases List.mem_cons.1 hx with rfl | hx
        · exact le_refl _
        · exact le_trans (hmax x hx) (not_lt.1 hlt)

/-- With a working query, `fetchLastOfType` is `nil` exactly on a table with no
row whose stored type is the converted parameter. -/
theorem fetchLastOfType_eq_none (numeric : String → String) (db : Table) (w : World)
    (notifyType : String) (hquery : w.queryErr = false) :
    fetchLastOfType numeric db w notifyType = none ↔
      ∀ r ∈ db, r.type ≠ numeric notifyType := by
  unfold fetchLastOfType QueryRowScan
  rw [hquery]
  simp only [Bool.false_eq_true, if_false]
  cases hr : orderByTimeDescLimit1 (db.filter (fun r => r.type == numeric notifyType)) with
  | none =>
    have hnil := (orderByTimeDescLimit1_eq_none _).1 hr
    simp only [true_iff]
    intro n hn hty
    have : n ∈ db.filter (fun r => r.type == numeric notifyType) := by
      simp [List.mem_filter, hn, hty]
    rw [hnil] at this
    simp at this
  | some m =>
    obtain ⟨hm, _⟩ := orderByTimeDescLimit1_some _ m hr
    simp only [List.mem_filter, beq_iff_eq] at hm
    constructor
    · intro h
      cases h
    · intro h
      exact absurd hm.2 (h m hm.1)

/-- With a working query, `fetchLastOfType` returns the time of a matching row
whose text no other matching row's text exceeds. -/
theorem fetchLastOfType_first (numeric : String → String) (db : Table) (w : World)
    (notifyType : String) (last : Row) (hquery : w.queryErr = false)
    (hlast : last ∈ db) (htype : last.type = numeric notifyType)
    (hfirst : ∀ r ∈ db, r.type = numeric notifyType → sortKey r.time ≤ sortKey last.time) :
    ∃ lastNotify, fetchLastOfType numeric db w notifyType = some lastNotify ∧
      lastNotify.Time = last.time.parse := by
  unfold fetchLastOfType QueryRowScan
  rw [hquery]
  simp only [Bool.false_eq_true, if_false]
  have hmem : last ∈ db.filter (fun r => r.type == numeric notifyType) := by
    simp [List.mem_filter, hlast, htype]
  cases hr : orderByTimeDescLimit1 (db.filter (fun r => r.type == numeric notifyType)) with
  | none =>
    have hnil := (orderByTimeDescLimit1_eq_none _).1 hr
    rw [hnil] at hmem
    simp at hmem
  | some m =>
    obtain ⟨hm, hge⟩ := orderByTimeDescLimit1_some _ m hr
    simp only [List.mem_filter, beq_iff_eq] at hm
    refine ⟨scanRow m, rfl, ?_⟩
    have h1 : sortKey m.time ≤ sortKey last.time := hfirst m hm.1 hm.2
    have h2 : sortKey last.time ≤ sortKey m.time := hge last hmem
    have : m.time = last.time := sortKey_injective _ _ (le_antisymm h1 h2)
    simp [scanRow, this]

/-- The three branches of `handler` after a successful decode. -/
theorem handler_forbidden (numeric : String → String) (config : Config) (w : World)
    (db : Table) (notifyRequest : NotifyRequest)
    (htok : checkRequestToken config notifyRequest.Token = false) :
    handler numeric config w db (.ok notifyRequest) =
      { response := httpError "Invalid token" 403, db := db,
        calls := [.checkRequestToken notifyRequest.Token] } := by
  simp [handler, htok]

theorem handler_suppressed (numeric : String → String) (config : Config) (w : World)
    (db : Table) (notifyRequest : NotifyRequest)
    (htok : checkRequestToken config notifyRequest.Token = true)
    (hchk : checkTimeoutNotify numeric config db w notifyRequest.Type_ = false) :
    handler numeric config w db (.ok notifyRequest) =
      { response := throttledResponse, db := db,
        calls := [.checkRequestToken notifyRequest.Token,
                  .checkTimeoutNotify notifyRequest.Type_] } := by
  simp [handler, htok, hchk]

theorem handler_allowed (numeric : String → String) (config : Config) (w : World)
    (db : Table) (notifyRequest : NotifyRequest)
    (htok : checkRequestToken config notifyRequest.Token = true)
    (hchk : checkTimeoutNotify numeric config db w notifyRequest.Type_ = true) :
    handler numeric config w db (.ok notifyRequest) =
      { response := createdResponse,
        db := (saveNotify numeric db w { Id := 0, Type_ := notifyRequest.Type_,
                                         Message := notifyRequest.Message,
                                         Time := w.notifyNow }).1,
        calls := [.checkRequestToken notifyRequest.Token,
                  .checkTimeoutNotify notifyRequest.Type_,
                  .Send config.ChatId notifyRequest.Message] ++
          (match w.sendErr with
           | some err => [.Println "не удалось отправить сообщение " err]
           | none => []) ++
          [.saveNotify { Id := 0, Type_ := notifyRequest.Type_,
                         Message := notifyRequest.Message, Time := w.notifyNow }] } := by
  simp [handler, htok, hchk]

/-- The throttle check does not look at the outcome of the delivery. -/
theorem checkTimeoutNotify_sendErr (numeric : String → String) (config : Config)
    (db : Table) (w : World) (typeNotify : String) (e : Option String) :
    checkTimeoutNotify numeric config db { w with sendErr := e } typeNotify =
      checkTimeoutNotify numeric config db w typeNotify := by
  unfold checkTimeoutNotify
  rw [checkTimeoutNotifyLoop_eq_find, checkTimeoutNotifyLoop_eq_find]
  rfl

/-- The decision of `checkTimeoutNotify` once the first matching rule and the
row returned by `fetchLastOfType` are known. -/
theorem checkTimeoutNotify_iff_of_fetch (numeric : String → String) (config : Config)
    (db : Table) (w : World) (typeNotify : String) (c : ℚ) (lastNotify : Notify)
    (hrule : (config.DurationTimeout.find? (fun r => r.Type_ == typeNotify)).map
      (fun r => r.TimeoutSecond) = some c)
    (hfetch : fetchLastOfType numeric db w typeNotify = some lastNotify) :
    checkTimeoutNotify numeric config db w typeNotify = true ↔
      Seconds (Sub w.checkNow lastNotify.Time) > c := by
  unfold checkTimeoutNotify
  rw [checkTimeoutNotifyLoop_eq_find]
  cases hf : config.DurationTimeout.find? (fun r => r.Type_ == typeNotify) with
  | none => rw [hf] at hrule; simp at hrule
  | some timeout =>
    rw [hf] at hrule
    simp only [Option.map_some', Option.some.injEq] at hrule
    simp only [hfetch, hrule, decide_eq_true_eq]

/-- The check passes when `fetchLastOfType` returns `nil`. -/
theorem checkTimeoutNotify_of_fetch_none (numeric : String → String) (config : Config)
    (db : Table) (w : World) (typeNotify : String)
    (hfetch : fetchLastOfType numeric db w typeNotify = none) :
    checkTimeoutNotify numeric config db w typeNotify = true := by
  unfold checkTimeoutNotify
  rw [checkTimeoutNotifyLoop_eq_find, hfetch]
  cases config.DurationTimeout.find? (fun r => r.Type_ == typeNotify) <;> rfl

/-- The check passes on an empty table when the query does not fail. -/
theorem checkTimeoutNotify_nil (numeric : String → String) (config : Config) (w : World)
    (typeNotify : String) (hquery : w.queryErr = false) :
    checkTimeoutNotify numeric config [] w typeNotify = true :=
  checkTimeoutNotify_of_fetch_none numeric config [] w typeNotify
    ((fetchLastOfType_eq_none numeric [] w typeNotify hquery).2 (by simp))

/-- The decision of `checkTimeoutNotify` on a table with one row and a
configuration with one rule, both of the type asked for. -/
theorem checkTimeoutNotify_single (numeric : String → String) (typeNotify : String) (c : ℚ)
    (row : Row) (w : World) (hquery : w.queryErr = false)
    (htype : row.type = numeric typeNotify) :
    checkTimeoutNotify numeric (ruleConfig typeNotify c) [row] w typeNotify =
      decide (Seconds (Sub w.checkNow row.time.parse) > c) := by
  simp [checkTimeoutNotify, checkTimeoutNotifyLoop, ruleConfig, fetchLastOfType, QueryRowScan,
    hquery, htype, orderByTimeDescLimit1, scanRow]

/-- A difference within the range of `Duration` is returned as it is. -/
theorem Sub_of_bounds (t u : Time) (h1 : t.unixNano - u.unixNano ≤ 9223372036854775807)
    (h2 : -9223372036854775808 ≤ t.unixNano - u.unixNano) :
    Sub t u = t.unixNano - u.unixNano := by
  unfold Sub maxDuration minDuration
  rw [if_neg (not_lt.2 h1), if_neg (not_lt.2 h2)]

/-- What `fetchLastOfType` and `checkTimeoutNotify` see after `saveNotify` has
stored an event accepted at `t0` whose text no matching row's text exceeds. -/
theorem saveNotify_then_check (numeric : String → String) (config : Config) (db : Table)
    (typeNotify : String) (c : ℚ)
    (hrule : (config.DurationTimeout.find? (fun r => r.Type_ == typeNotify)).map
      (fun r => r.TimeoutSecond) = some c)
    (message : String) (t0 : Time) (wsave w : World)
    (hexec : wsave.execErr = false) (hquery : w.queryErr = false)
    (hfirst : ∀ r ∈ db, r.type = numeric typeNotify →
      sortKey r.time ≤ sortKey (FormatRFC3339 t0)) :
    (fetchLastOfType numeric
        (saveNotify numeric db wsave ⟨0, typeNotify, t0, message⟩).1 w typeNotify).map
        (fun n => n.Time.unixNano) = some (t0.unixNano / 1000000000 * 1000000000) ∧
      (checkTimeoutNotify numeric config
        (saveNotify numeric db wsave ⟨0, typeNotify, t0, message⟩).1 w typeNotify = true ↔
        Seconds (Sub w.checkNow
          { unixNano := t0.unixNano / 1000000000 * 1000000000, offset := t0.offset }) > c) := by
  have hdb : (saveNotify numeric db wsave ⟨0, typeNotify, t0, message⟩).1 =
      db ++ [⟨nextRowid db, numeric typeNotify, FormatRFC3339 t0, message⟩] := by
    simp [saveNotify, hexec]
  rw [hdb]
  have hparse : (FormatRFC3339 t0).parse =
      { unixNano := t0.unixNano / 1000000000 * 1000000000, offset := t0.offset } := by
    simp [FormatRFC3339, RFC3339.parse, Second]
  obtain ⟨lastNotify, hfetch, htime⟩ :=
    fetchLastOfType_first numeric
      (db ++ [⟨nextRowid db, numeric typeNotify, FormatRFC3339 t0, message⟩])
      w typeNotify ⟨nextRowid db, numeric typeNotify, FormatRFC3339 t0, message⟩ hquery
      (List.mem_append_right _ (List.mem_singleton_self _)) rfl
      (by
        intro r hr hty
        rcases List.mem_append.1 hr with hr | hr
        · exact hfirst r hr hty
        · rw [List.mem_singleton.1 hr])
  simp only at htime
  rw [hparse] at htime
  refine ⟨by rw [hfetch]; simp [htime], ?_⟩
  rw [checkTimeoutNotify_iff_of_fetch numeric config _ w typeNotify c lastNotify hrule hfetch,
    htime]

/-- The decision on a gap of a whole number of seconds. -/
theorem Seconds_Sub_whole (t u : Time) (k : Int) (hk : |k| ≤ 9223372036)
    (h : t.unixNano - u.unixNano = k * 1000000000) : Seconds (Sub t u) = k := by
  have hk2 := abs_le.1 hk
  rw [Sub_of_bounds t u (by omega) (by omega), h]
  exact Seconds_whole k (by rw [abs_lt]; constructor <;> omega)

/-! ## The throttle decision -/

/-- C1, as the code has it: for a type whose first matching rule has cooldown
`c`, when the query does not fail and `last` is the row it puts first (a row
whose stored type is the converted type and whose time text no such row
exceeds), `checkTimeoutNotify` at time `t1` returns true exactly when the
`float64` value of `t1.Sub(t0).Seconds()` exceeds `c`, `t0` being the time of
`last`.  For a cooldown `c ≥ 0` that is a `float64` it returns true only if
`t1 - t0 > c`, so at `t1 - t0 = c` the event is suppressed.  When `t1 - t0` is
a whole number of seconds within the range of `Duration`, it returns true
exactly when `t1 - t0 > c`. -/
theorem checkTimeoutNotify_allowed_iff_seconds_gt
    (numeric : String → String) (config : Config) (db : Table) (w : World)
    (typeNotify : String) (c : ℚ) (last : Row)
    (hrule : (config.DurationTimeout.find? (fun r => r.Type_ == typeNotify)).map
      (fun r => r.TimeoutSecond) = some c)
    (hquery : w.queryErr = false)
    (hlast : last ∈ db) (htype : last.type = numeric typeNotify)
    (hfirst : ∀ r ∈ db, r.type = numeric typeNotify → sortKey r.time ≤ sortKey last.time) :
    (checkTimeoutNotify numeric config db w typeNotify = true ↔
        Seconds (Sub w.checkNow last.time.parse) > c) ∧
      (roundFloat64 c = c → 0 ≤ c →
        (checkTimeoutNotify numeric config db w typeNotify = true →
          ((w.checkNow.unixNano - last.time.parse.unixNano : Int) : ℚ) / 1000000000 > c) ∧
        (((w.checkNow.unixNano - last.time.parse.unixNano : Int) : ℚ) / 1000000000 = c →
          checkTimeoutNotify numeric config db w typeNotify = false)) ∧
      (∀ k : Int, |k| ≤ 9223372036 →
        w.checkNow.unixNano - last.time.parse.unixNano = k * 1000000000 →
        (checkTimeoutNotify numeric config db w typeNotify = true ↔ (k : ℚ) > c) ∧
          ((k : ℚ) = c → checkTimeoutNotify numeric config db w typeNotify = false)) := by
  obtain ⟨lastNotify, hfetch, htime⟩ :=
    fetchLastOfType_first numeric db w typeNotify last hquery hlast htype hfirst
  have hiff : checkTimeoutNotify numeric config db w typeNotify = true ↔
      Seconds (Sub w.checkNow last.time.parse) > c := by
    rw [checkTimeoutNotify_iff_of_fetch numeric config db w typeNotify c lastNotify hrule hfetch,
      htime]
  have hsound : roundFloat64 c = c → 0 ≤ c →
      checkTimeoutNotify numeric config db w typeNotify = true →
      ((w.checkNow.unixNano - last.time.parse.unixNano : Int) : ℚ) / 1000000000 > c := by
    intro hfix hc0 hchk
    by_contra hle
    have := Seconds_Sub_le_of_le w.checkNow last.time.parse c hc0 hfix (not_lt.1 hle)
    exact absurd (hiff.1 hchk) (not_lt.2 this)
  refine ⟨hiff, ?_, ?_⟩
  · intro hfix hc0
    refine ⟨hsound hfix hc0, ?_⟩
    intro heq
    cases hc : checkTimeoutNotify numeric config db w typeNotify with
    | false => rfl
    | true =>
      have := hsound hfix hc0 hc
      rw [heq] at this
      exact absurd this (lt_irrefl _)
  · intro k hk hgap
    have hsec := Seconds_Sub_whole _ _ k hk hgap
    rw [hsec] at hiff
    refine ⟨hiff, ?_⟩
    intro heq
    cases hc : checkTimeoutNotify numeric config db w typeNotify with
    | false => rfl
    | true =>
      have := hiff.1 hc
      rw [heq] at this
      exact absurd this (lt_irrefl _)

/-- C1 at a concrete input: cooldown 60 s, last row at 0 s, now 61 s. -/
theorem checkTimeoutNotify_allowed_iff_seconds_gt_witness :
    (checkTimeoutNotify decimalInteger exampleConfig [exampleRow 1 0] (exampleWorld 61 none)
        "disk-full" = true ↔
        Seconds (Sub (exampleWorld 61 none).checkNow (exampleRow 1 0).time.parse) > 60) ∧
      (roundFloat64 60 = 60 → (0 : ℚ) ≤ 60 →
        (checkTimeoutNotify decimalInteger exampleConfig [exampleRow 1 0]
            (exampleWorld 61 none) "disk-full" = true →
          (((exampleWorld 61 none).checkNow.unixNano
            - (exampleRow 1 0).time.parse.unixNano : Int) : ℚ) / 1000000000 > 60) ∧
        ((((exampleWorld 61 none).checkNow.unixNano
            - (exampleRow 1 0).time.parse.unixNano : Int) : ℚ) / 1000000000 = 60 →
          checkTimeoutNotify decimalInteger exampleConfig [exampleRow 1 0]
            (exampleWorld 61 none) "disk-full" = false)) ∧
      (∀ k : Int, |k| ≤ 9223372036 →
        (exampleWorld 61 none).checkNow.unixNano - (exampleRow 1 0).time.parse.unixNano
          = k * 1000000000 →
        (checkTimeoutNotify decimalInteger exampleConfig [exampleRow 1 0]
            (exampleWorld 61 none) "disk-full" = true ↔ (k : ℚ) > 60) ∧
          ((k : ℚ) = 60 → checkTimeoutNotify decimalInteger exampleConfig [exampleRow 1 0]
            (exampleWorld 61 none) "disk-full" = false)) :=
  checkTimeoutNotify_allowed_iff_seconds_gt decimalInteger exampleConfig [exampleRow 1 0]
    (exampleWorld 61 none) "disk-full" 60 (exampleRow 1 0)
    (by simp [exampleConfig, ruleConfig]) rfl (by simp) (by decide) (by simp)

/-- C1 as stated fails in five ways.  (1) `float64` rounding: cooldown 2^24 s,
last row at 0 s, now one nanosecond past 2^24 s: `t1 - t0 > c`, yet the check
returns false.  (2) Saturation: cooldown 10^10 s, last row at 0 s, now
1.1 * 10^10 s: `t1 - t0 > c`, yet the check returns false.  (3) Text order:
a row written at 100 s under offset +02:00 sorts after a row written at 3000 s
in UTC, so at 3030 s with cooldown 60 s the check compares against 100 s and
returns true although the most recent event is 30 s old.  (4) NUMERIC affinity:
an event of type "0123" at 0 s and one of type "123" at 50 s are stored with the
same type, so at 70 s the check for "0123" with cooldown 60 s returns false
although the last "0123" event is 70 s old.  (5) A failing query: last row at
0 s, now 10 s, cooldown 60 s, and the check returns true. -/
theorem checkTimeoutNotify_elapsed_gt_not_allowed :
    (checkTimeoutNotify decimalInteger (ruleConfig "disk-full" 16777216) [exampleRow 1 0]
        (faultyWorld 16777216000000001 false false) "disk-full" = false ∧
      (((16777216000000001 - 0 : Int) : ℚ) / 1000000000 > 16777216)) ∧
    (checkTimeoutNotify decimalInteger (ruleConfig "disk-full" 10000000000) [exampleRow 1 0]
        (faultyWorld 11000000000000000000 false false) "disk-full" = false ∧
      (((11000000000000000000 - 0 : Int) : ℚ) / 1000000000 > 10000000000)) ∧
    ((RFC3339.parse { wall := 7300, zone := 120 }).unixNano = 100 * Second ∧
      (RFC3339.parse { wall := 3000, zone := 0 }).unixNano = 3000 * Second ∧
      checkTimeoutNotify decimalInteger exampleConfig
        [{ id := 1, type := "disk-full", time := { wall := 7300, zone := 120 }, message := "a" },
         { id := 2, type := "disk-full", time := { wall := 3000, zone := 0 }, message := "b" }]
        (exampleWorld 3030 none) "disk-full" = true ∧
      ¬ (((3030 * Second - 3000 * Second : Int) : ℚ) / 1000000000 > 60)) ∧
    ((saveNotify decimalInteger
          (saveNotify decimalInteger [] (exampleWorld 0 none)
            { Id := 0, Type_ := "0123", Time := utc 0, Message := "a" }).1
          (exampleWorld 50 none)
          { Id := 0, Type_ := "123", Time := utc (50 * Second), Message := "b" }).1 =
        [{ id := 1, type := "123", time := { wall := 0, zone := 0 }, message := "a" },
         { id := 2, type := "123", time := { wall := 50, zone := 0 }, message := "b" }] ∧
      checkTimeoutNotify decimalInteger (ruleConfig "0123" 60)
        [{ id := 1, type := "123", time := { wall := 0, zone := 0 }, message := "a" },
         { id := 2, type := "123", time := { wall := 50, zone := 0 }, message := "b" }]
        (exampleWorld 70 none) "0123" = false ∧
      (((70 * Second - 0 * Second : Int) : ℚ) / 1000000000 > 60)) ∧
    (checkTimeoutNotify decimalInteger exampleConfig [exampleRow 1 0]
        (faultyWorld (10 * Second) true false) "disk-full" = true ∧
      ¬ (((10 * Second - 0 * Second : Int) : ℚ) / 1000000000 > 60)) := by
  refine ⟨⟨?_, by norm_num⟩, ⟨?_, by norm_num⟩, ⟨?_, ?_, ?_, ?_⟩, ⟨?_, ?_, ?_⟩, ?_, ?_⟩
  · rw [checkTimeoutNotify_single _ _ _ _ _ rfl (by decide)]
    have hsub : Sub (faultyWorld 16777216000000001 false false).checkNow
        (exampleRow 1 0).time.parse = 16777216000000001 := by decide
    rw [hsub, Seconds_boundary]
    simp
  · rw [checkTimeoutNotify_single _ _ _ _ _ rfl (by decide)]
    have hsub : Sub (faultyWorld 11000000000000000000 false false).checkNow
        (exampleRow 1 0).time.parse = maxDuration := by decide
    rw [hsub, Seconds_maxDuration]
    simp
    norm_num
  · decide
  · decide
  · have hfetch : fetchLastOfType decimalInteger
        [{ id := 1, type := "disk-full", time := { wall := 7300, zone := 120 }, message := "a" },
         { id := 2, type := "disk-full", time := { wall := 3000, zone := 0 }, message := "b" }]
        (exampleWorld 3030 none) "disk-full" =
        some (scanRow { id := 1, type := "disk-full", time := { wall := 7300, zone := 120 },
                        message := "a" }) := by decide
    rw [checkTimeoutNotify_iff_of_fetch decimalInteger exampleConfig _ _ "disk-full" 60 _
      (by simp [exampleConfig, ruleConfig]) hfetch]
    rw [Seconds_Sub_whole _ _ 2930 (by norm_num) (by decide)]
    norm_num
  · simp [Second]
    norm_num
  · decide
  · have hfetch : fetchLastOfType decimalInteger
        [{ id := 1, type := "123", time := { wall := 0, zone := 0 }, message := "a" },
         { id := 2, type := "123", time := { wall := 50, zone := 0 }, message := "b" }]
        (exampleWorld 70 none) "0123" =
        some (scanRow { id := 2, type := "123", time := { wall := 50, zone := 0 },
                        message := "b" }) := by decide
    cases hc : checkTimeoutNotify decimalInteger (ruleConfig "0123" 60)
        [{ id := 1, type := "123", time := { wall := 0, zone := 0 }, message := "a" },
         { id := 2, type := "123", time := { wall := 50, zone := 0 }, message := "b" }]
        (exampleWorld 70 none) "0123" with
    | false => rfl
    | true =>
      rw [checkTimeoutNotify_iff_of_fetch decimalInteger (ruleConfig "0123" 60) _ _ "0123" 60 _
        (by simp [ruleConfig]) hfetch,
        Seconds_Sub_whole _ _ 20 (by norm_num) (by decide)] at hc
      norm_num at hc
  · simp [Second]
    norm_num
  · have hfetch : fetchLastOfType decimalInteger [exampleRow 1 0]
        (faultyWorld (10 * Second) true false) "disk-full" = some zeroNotify := by decide
    rw [checkTimeoutNotify_iff_of_fetch decimalInteger exampleConfig _ _ "disk-full" 60 _
      (by simp [exampleConfig, ruleConfig]) hfetch]
    have hsub : Sub (faultyWorld (10 * Second) true false).checkNow zeroNotify.Time
        = maxDuration := by decide
    rw [hsub, Seconds_maxDuration]
    norm_num
  · simp [Second]
    norm_num

/-- C2: a type without a rule in `config.DurationTimeout` passes
`checkTimeoutNotify` on every table and at every time, and a decoded request of
that type with a valid token is sent, saved and answered 201. -/
theorem checkTimeoutNotify_no_rule_always_allowed
    (numeric : String → String) (config : Config) (db : Table) (w : World)
    (notifyRequest : NotifyRequest)
    (hno : ∀ r ∈ config.DurationTimeout, r.Type_ ≠ notifyRequest.Type_)
    (htoken : notifyRequest.Token ∈ config.Tokens) :
    checkTimeoutNotify numeric config db w notifyRequest.Type_ = true ∧
      (handler numeric config w db (.ok notifyRequest)).response = createdResponse ∧
      Call.Send config.ChatId notifyRequest.Message ∈
        (handler numeric config w db (.ok notifyRequest)).calls ∧
      Call.saveNotify { Id := 0, Type_ := notifyRequest.Type_, Time := w.notifyNow,
                        Message := notifyRequest.Message } ∈
        (handler numeric config w db (.ok notifyRequest)).calls ∧
      (handler numeric config w db (.ok notifyRequest)).db =
        (saveNotify numeric db w { Id := 0, Type_ := notifyRequest.Type_, Time := w.notifyNow,
                                   Message := notifyRequest.Message }).1 := by
  have hchk : checkTimeoutNotify numeric config db w notifyRequest.Type_ = true := by
    unfold checkTimeoutNotify
    rw [checkTimeoutNotifyLoop_eq_find]
    have hnone : config.DurationTimeout.find? (fun r => r.Type_ == notifyRequest.Type_)
        = none := by
      rw [List.find?_eq_none]
      intro r hr
      simpa using hno r hr
    rw [hnone]
  have htok : checkRequestToken config notifyRequest.Token = true :=
    (checkRequestTokenLoop_iff_mem _ _).2 htoken
  rw [handler_allowed numeric config w db notifyRequest htok hchk]
  refine ⟨hchk, rfl, ?_, ?_, rfl⟩ <;> simp

/-- C2 at a concrete input: the type "cpu" has no rule in the example configuration. -/
theorem checkTimeoutNotify_no_rule_always_allowed_witness :
    checkTimeoutNotify decimalInteger exampleConfig [exampleRow 1 0] (exampleWorld 1 none)
        "cpu" = true ∧
      (handler decimalInteger exampleConfig (exampleWorld 1 none) [exampleRow 1 0]
        (.ok ⟨"cpu", "load", "valid1"⟩)).response = createdResponse ∧
      Call.Send 7 "load" ∈ (handler decimalInteger exampleConfig (exampleWorld 1 none)
        [exampleRow 1 0] (.ok ⟨"cpu", "load", "valid1"⟩)).calls ∧
      Call.saveNotify { Id := 0, Type_ := "cpu", Time := utc (1 * Second),
                        Message := "load" } ∈
        (handler decimalInteger exampleConfig (exampleWorld 1 none) [exampleRow 1 0]
          (.ok ⟨"cpu", "load", "valid1"⟩)).calls ∧
      (handler decimalInteger exampleConfig (exampleWorld 1 none) [exampleRow 1 0]
          (.ok ⟨"cpu", "load", "valid1"⟩)).db =
        (saveNotify decimalInteger [exampleRow 1 0] (exampleWorld 1 none)
          { Id := 0, Type_ := "cpu", Time := utc (1 * Second), Message := "load" }).1 :=
  checkTimeoutNotify_no_rule_always_allowed decimalInteger exampleConfig [exampleRow 1 0]
    (exampleWorld 1 none) ⟨"cpu", "load", "valid1"⟩
    (by simp [exampleConfig, ruleConfig]) (by simp [exampleConfig, ruleConfig])

/-- When the query does not fail and no row of the table has the converted type
as its stored type, `checkTimeoutNotify` returns true, whatever the rules are. -/
theorem checkTimeoutNotify_no_matching_row_allowed
    (numeric : String → String) (config : Config) (db : Table) (w : World)
    (typeNotify : String)
    (hnone : ∀ r ∈ db, r.type ≠ numeric typeNotify) (hquery : w.queryErr = false) :
    checkTimeoutNotify numeric config db w typeNotify = true := by
  have hfetch : fetchLastOfType numeric db w typeNotify = none :=
    (fetchLastOfType_eq_none numeric db w typeNotify hquery).2 hnone
  exact checkTimeoutNotify_of_fetch_none numeric config db w typeNotify hfetch

/-- The same at a concrete input: a rule for "disk-full" and a table that holds
only a row of type "cpu". -/
theorem checkTimeoutNotify_no_matching_row_allowed_witness :
    checkTimeoutNotify decimalInteger exampleConfig
      [{ id := 1, type := "cpu", time := { wall := 0, zone := 0 }, message := "m" }]
      (exampleWorld 5 none) "disk-full" = true :=
  checkTimeoutNotify_no_matching_row_allowed decimalInteger exampleConfig
    [{ id := 1, type := "cpu", time := { wall := 0, zone := 0 }, message := "m" }]
    (exampleWorld 5 none) "disk-full" (by decide) rfl

/-- C3: the first event of a type is suppressed in two cases.  (1) NUMERIC
affinity: the only event stored is of type "123", at 0 s; with the rule
"0123": 60 s the check for the type "0123" at 10 s finds that row and returns
false.  (2) A failing query: on an empty table with a cooldown of 10^10 s, the
zero-valued row is compared against, the elapsed time saturates at the largest
`Duration`, about 9.22 * 10^9 s, and the check returns false. -/
theorem checkTimeoutNotify_first_event_suppressed :
    ((saveNotify decimalInteger [] (exampleWorld 0 none)
          { Id := 0, Type_ := "123", Time := utc 0, Message := "m" }).1 =
        [{ id := 1, type := "123", time := { wall := 0, zone := 0 }, message := "m" }] ∧
      "123" ≠ "0123" ∧
      checkTimeoutNotify decimalInteger (ruleConfig "0123" 60)
        [{ id := 1, type := "123", time := { wall := 0, zone := 0 }, message := "m" }]
        (exampleWorld 10 none) "0123" = false) ∧
    checkTimeoutNotify decimalInteger (ruleConfig "disk-full" 10000000000) []
      (faultyWorld 0 true false) "disk-full" = false := by
  refine ⟨⟨by decide, by decide, ?_⟩, ?_⟩
  · rw [checkTimeoutNotify_single _ _ _ _ _ rfl (by decide),
      Seconds_Sub_whole _ _ 10 (by norm_num) (by decide)]
    simp
    norm_num
  · have hfetch : fetchLastOfType decimalInteger [] (faultyWorld 0 true false) "disk-full"
        = some zeroNotify := by decide
    cases hc : checkTimeoutNotify decimalInteger (ruleConfig "disk-full" 10000000000) []
        (faultyWorld 0 true false) "disk-full" with
    | false => rfl
    | true =>
      have hsub : Sub (faultyWorld 0 true false).checkNow zeroNotify.Time = maxDuration := by
        decide
      rw [checkTimeoutNotify_iff_of_fetch decimalInteger (ruleConfig "disk-full" 10000000000)
        _ _ "disk-full" 10000000000 _ (by simp [ruleConfig]) hfetch, hsub,
        Seconds_maxDuration] at hc
      norm_num at hc

/-! ## The request handler -/

/-- C4: a decoded request with a valid token that fails the throttle check
causes no `Send` and no `saveNotify`, leaves the table as it was, and is
answered with the throttled response (status 302, body
`{"status":"notification timeout"}`). -/
theorem handler_suppressed_no_effect
    (numeric : String → String) (config : Config) (w : World) (db : Table)
    (notifyRequest : NotifyRequest)
    (htoken : notifyRequest.Token ∈ config.Tokens)
    (hchk : checkTimeoutNotify numeric config db w notifyRequest.Type_ = false) :
    (handler numeric config w db (.ok notifyRequest)).db = db ∧
      (∀ chatId text, Call.Send chatId text ∉
        (handler numeric config w db (.ok notifyRequest)).calls) ∧
      (∀ notify, Call.saveNotify notify ∉
        (handler numeric config w db (.ok notifyRequest)).calls) ∧
      (handler numeric config w db (.ok notifyRequest)).response.status = 302 ∧
      (handler numeric config w db (.ok notifyRequest)).response.body =
        "\x7b\"status\":\"notification timeout\"\x7d" := by
  have htok : checkRequestToken config notifyRequest.Token = true :=
    (checkRequestTokenLoop_iff_mem _ _).2 htoken
  rw [handler_suppressed numeric config w db notifyRequest htok hchk]
  refine ⟨rfl, ?_, ?_, rfl, rfl⟩ <;> simp

/-- C4 at a concrete input: a second "disk-full" event 30 s after the first. -/
theorem handler_suppressed_no_effect_witness :
    (handler decimalInteger exampleConfig (exampleWorld 30 none) [exampleRow 1 0]
        (.ok ⟨"disk-full", "again", "valid2"⟩)).db = [exampleRow 1 0] ∧
      (∀ chatId text, Call.Send chatId text ∉
        (handler decimalInteger exampleConfig (exampleWorld 30 none) [exampleRow 1 0]
          (.ok ⟨"disk-full", "again", "valid2"⟩)).calls) ∧
      (∀ notify, Call.saveNotify notify ∉
        (handler decimalInteger exampleConfig (exampleWorld 30 none) [exampleRow 1 0]
          (.ok ⟨"disk-full", "again", "valid2"⟩)).calls) ∧
      (handler decimalInteger exampleConfig (exampleWorld 30 none) [exampleRow 1 0]
        (.ok ⟨"disk-full", "again", "valid2"⟩)).response.status = 302 ∧
      (handler decimalInteger exampleConfig (exampleWorld 30 none) [exampleRow 1 0]
        (.ok ⟨"disk-full", "again", "valid2"⟩)).response.body =
        "\x7b\"status\":\"notification timeout\"\x7d" :=
  handler_suppressed_no_effect decimalInteger exampleConfig (exampleWorld 30 none)
    [exampleRow 1 0] ⟨"disk-full", "again", "valid2"⟩ (by simp [exampleConfig, ruleConfig])
    (by
      show checkTimeoutNotify decimalInteger (ruleConfig "disk-full" 60) [exampleRow 1 0]
        (exampleWorld 30 none) "disk-full" = false
      rw [checkTimeoutNotify_single _ _ _ _ _ rfl (by decide),
        Seconds_Sub_whole _ _ 30 (by norm_num) (by decide)]
      simp
      norm_num)

/-- C5, as the code has it: when the `INSERT` does not fail, a decoded request
with a valid token that passes the throttle check adds exactly one row to the
table, carrying the message of the request, its type as the column converts it
(the type itself when the column keeps it) and the acceptance time as
`RFC3339` text, whether `Send` returns an error or not. -/
theorem handler_allowed_persists_once
    (numeric : String → String) (config : Config) (w : World) (db : Table)
    (notifyRequest : NotifyRequest)
    (htoken : notifyRequest.Token ∈ config.Tokens)
    (hchk : checkTimeoutNotify numeric config db w notifyRequest.Type_ = true)
    (hexec : w.execErr = false) :
    ∀ sendErr : Option String,
      ∃ row : Row,
        (handler numeric config { w with sendErr := sendErr } db (.ok notifyRequest)).db
          = db ++ [row] ∧
        row.type = numeric notifyRequest.Type_ ∧
        (numeric notifyRequest.Type_ = notifyRequest.Type_ →
          row.type = notifyRequest.Type_) ∧
        row.message = notifyRequest.Message ∧
        row.time = FormatRFC3339 w.notifyNow ∧
        (handler numeric config { w with sendErr := sendErr } db
          (.ok notifyRequest)).db.length = db.length + 1 ∧
        Call.Send config.ChatId notifyRequest.Message ∈
          (handler numeric config { w with sendErr := sendErr } db (.ok notifyRequest)).calls := by
  intro sendErr
  have htok : checkRequestToken config notifyRequest.Token = true :=
    (checkRequestTokenLoop_iff_mem _ _).2 htoken
  have hchk2 : checkTimeoutNotify numeric config db { w with sendErr := sendErr }
      notifyRequest.Type_ = true := by
    rw [checkTimeoutNotify_sendErr]; exact hchk
  rw [handler_allowed numeric config _ db notifyRequest htok hchk2]
  refine ⟨{ id := nextRowid db, type := numeric notifyRequest.Type_,
            time := FormatRFC3339 w.notifyNow, message := notifyRequest.Message },
          ?_, rfl, fun h => h, rfl, rfl, ?_, ?_⟩
  · simp [saveNotify, hexec]
  · simp [saveNotify, hexec]
  · simp

/-- C5 at a concrete input: the first "disk-full" event on an empty table, with
a delivery that fails. -/
theorem handler_allowed_persists_once_witness :
    ∃ row : Row,
      (handler decimalInteger exampleConfig { exampleWorld 0 none with sendErr := some "timeout" }
        [] (.ok ⟨"disk-full", "m", "valid1"⟩)).db = [] ++ [row] ∧
      row.type = decimalInteger "disk-full" ∧
      (decimalInteger "disk-full" = "disk-full" → row.type = "disk-full") ∧
      row.message = "m" ∧
      row.time = FormatRFC3339 (exampleWorld 0 none).notifyNow ∧
      (handler decimalInteger exampleConfig { exampleWorld 0 none with sendErr := some "timeout" }
        [] (.ok ⟨"disk-full", "m", "valid1"⟩)).db.length = ([] : Table).length + 1 ∧
      Call.Send 7 "m" ∈
        (handler decimalInteger exampleConfig
          { exampleWorld 0 none with sendErr := some "timeout" } []
          (.ok ⟨"disk-full", "m", "valid1"⟩)).calls :=
  handler_allowed_persists_once decimalInteger exampleConfig (exampleWorld 0 none) []
    ⟨"disk-full", "m", "valid1"⟩ (by simp [exampleConfig, ruleConfig])
    (checkTimeoutNotify_nil _ _ _ _ rfl)
    rfl (some "timeout")

/-- C5 as stated fails in two ways.  (1) A failing `INSERT`: the request passes
the throttle check and is answered 201, and the table has no more rows than
before.  (2) NUMERIC affinity: the row stored for a request of type "0123"
carries the type "123". -/
theorem handler_allowed_not_persisted :
    (checkTimeoutNotify decimalInteger exampleConfig [] (faultyWorld 0 false true)
        "disk-full" = true ∧
      (handler decimalInteger exampleConfig (faultyWorld 0 false true) []
        (.ok ⟨"disk-full", "m", "valid1"⟩)).response = createdResponse ∧
      (handler decimalInteger exampleConfig (faultyWorld 0 false true) []
        (.ok ⟨"disk-full", "m", "valid1"⟩)).db = []) ∧
    ((handler decimalInteger exampleConfig (exampleWorld 0 none) []
        (.ok ⟨"0123", "m", "valid1"⟩)).db =
        [{ id := 1, type := "123", time := { wall := 0, zone := 0 }, message := "m" }] ∧
      "123" ≠ "0123") := by
  have htok : checkRequestToken exampleConfig "valid1" = true := by decide
  have h1 : checkTimeoutNotify decimalInteger exampleConfig [] (faultyWorld 0 false true)
      "disk-full" = true :=
    checkTimeoutNotify_nil _ _ _ _ rfl
  have h2 : checkTimeoutNotify decimalInteger exampleConfig [] (exampleWorld 0 none)
      "0123" = true :=
    checkTimeoutNotify_nil _ _ _ _ rfl
  refine ⟨⟨h1, ?_, ?_⟩, ?_, by decide⟩
  · rw [handler_allowed _ _ _ _ _ htok h1]
  · rw [handler_allowed _ _ _ _ _ htok h1]
    rfl
  · rw [handler_allowed _ _ _ _ _ htok h2]
    decide

/-- C6: a decoded request whose token is not in `config.Tokens` is answered 403
with the text "Invalid token"; `handler` calls nothing but `checkRequestToken`
(no throttle check, no `Send`, no `saveNotify`) and the table is unchanged,
whatever the type and the message are. -/
theorem handler_invalid_token_forbidden
    (numeric : String → String) (config : Config) (w : World) (db : Table)
    (notifyRequest : NotifyRequest)
    (htoken : notifyRequest.Token ∉ config.Tokens) :
    (handler numeric config w db (.ok notifyRequest)).response
        = httpError "Invalid token" 403 ∧
      (handler numeric config w db (.ok notifyRequest)).response.status = 403 ∧
      (handler numeric config w db (.ok notifyRequest)).response.body = "Invalid token\n" ∧
      (handler numeric config w db (.ok notifyRequest)).calls =
        [Call.checkRequestToken notifyRequest.Token] ∧
      (∀ typeNotify, Call.checkTimeoutNotify typeNotify ∉
        (handler numeric config w db (.ok notifyRequest)).calls) ∧
      (∀ chatId text, Call.Send chatId text ∉
        (handler numeric config w db (.ok notifyRequest)).calls) ∧
      (∀ notify, Call.saveNotify notify ∉
        (handler numeric config w db (.ok notifyRequest)).calls) ∧
      (handler numeric config w db (.ok notifyRequest)).db = db := by
  have htok : checkRequestToken config notifyRequest.Token = false := by
    cases h : checkRequestToken config notifyRequest.Token with
    | false => rfl
    | true => exact absurd ((checkRequestTokenLoop_iff_mem _ _).1 h) htoken
  rw [handler_forbidden numeric config w db notifyRequest htok]
  refine ⟨rfl, rfl, ?_, rfl, ?_, ?_, ?_, rfl⟩ <;> simp [httpError]

/-- C6 at a concrete input: the token "abc" against the tokens "valid1", "valid2". -/
theorem handler_invalid_token_forbidden_witness :
    (handler decimalInteger exampleConfig (exampleWorld 0 none) []
        (.ok ⟨"disk-full", "m", "abc"⟩)).response = httpError "Invalid token" 403 ∧
      (handler decimalInteger exampleConfig (exampleWorld 0 none) []
        (.ok ⟨"disk-full", "m", "abc"⟩)).response.status = 403 ∧
      (handler decimalInteger exampleConfig (exampleWorld 0 none) []
        (.ok ⟨"disk-full", "m", "abc"⟩)).response.body = "Invalid token\n" ∧
      (handler decimalInteger exampleConfig (exampleWorld 0 none) []
        (.ok ⟨"disk-full", "m", "abc"⟩)).calls = [Call.checkRequestToken "abc"] ∧
      (∀ typeNotify, Call.checkTimeoutNotify typeNotify ∉
        (handler decimalInteger exampleConfig (exampleWorld 0 none) []
          (.ok ⟨"disk-full", "m", "abc"⟩)).calls) ∧
      (∀ chatId text, Call.Send chatId text ∉
        (handler decimalInteger exampleConfig (exampleWorld 0 none) []
          (.ok ⟨"disk-full", "m", "abc"⟩)).calls) ∧
      (∀ notify, Call.saveNotify notify ∉
        (handler decimalInteger exampleConfig (exampleWorld 0 none) []
          (.ok ⟨"disk-full", "m", "abc"⟩)).calls) ∧
      (handler decimalInteger exampleConfig (exampleWorld 0 none) []
        (.ok ⟨"disk-full", "m", "abc"⟩)).db = [] :=
  handler_invalid_token_forbidden decimalInteger exampleConfig (exampleWorld 0 none) []
    ⟨"disk-full", "m", "abc"⟩ (by simp [exampleConfig, ruleConfig])

/-- C7: a decoded request with a valid token that passes the throttle check is
answered 201 with the body `{"status": "notified"}`, and the response is the
same whether `Send` returns an error or not. -/
theorem handler_allowed_created
    (numeric : String → String) (config : Config) (w : World) (db : Table)
    (notifyRequest : NotifyRequest)
    (htoken : notifyRequest.Token ∈ config.Tokens)
    (hchk : checkTimeoutNotify numeric config db w notifyRequest.Type_ = true) :
    ∀ sendErr : Option String,
      (handler numeric config { w with sendErr := sendErr } db
          (.ok notifyRequest)).response.status = 201 ∧
        (handler numeric config { w with sendErr := sendErr } db
          (.ok notifyRequest)).response.body = "\x7b\"status\": \"notified\"\x7d" ∧
        (handler numeric config { w with sendErr := sendErr } db (.ok notifyRequest)).response
          = (handler numeric config { w with sendErr := none } db
              (.ok notifyRequest)).response := by
  intro sendErr
  have htok : checkRequestToken config notifyRequest.Token = true :=
    (checkRequestTokenLoop_iff_mem _ _).2 htoken
  have hchk2 : ∀ e, checkTimeoutNotify numeric config db { w with sendErr := e }
      notifyRequest.Type_ = true := by
    intro e; rw [checkTimeoutNotify_sendErr]; exact hchk
  rw [handler_allowed numeric config _ db notifyRequest htok (hchk2 sendErr),
    handler_allowed numeric config _ db notifyRequest htok (hchk2 none)]
  exact ⟨rfl, rfl, rfl⟩

/-- C7 at a concrete input: the first "disk-full" event on an empty table, with
a delivery that fails. -/
theorem handler_allowed_created_witness :
    (handler decimalInteger exampleConfig { exampleWorld 0 none with sendErr := some "timeout" }
        [] (.ok ⟨"disk-full", "m", "valid1"⟩)).response.status = 201 ∧
      (handler decimalInteger exampleConfig { exampleWorld 0 none with sendErr := some "timeout" }
        [] (.ok ⟨"disk-full", "m", "valid1"⟩)).response.body
        = "\x7b\"status\": \"notified\"\x7d" ∧
      (handler decimalInteger exampleConfig { exampleWorld 0 none with sendErr := some "timeout" }
        [] (.ok ⟨"disk-full", "m", "valid1"⟩)).response
        = (handler decimalInteger exampleConfig { exampleWorld 0 none with sendErr := none } []
            (.ok ⟨"disk-full", "m", "valid1"⟩)).response :=
  handler_allowed_created decimalInteger exampleConfig (exampleWorld 0 none) []
    ⟨"disk-full", "m", "valid1"⟩ (by simp [exampleConfig, ruleConfig])
    (checkTimeoutNotify_nil _ _ _ _ rfl)
    (some "timeout")

/-- C8: storage errors are swallowed.  When the `INSERT` fails, `handler` still
answers 201 and the table is unchanged; when the `SELECT` fails with an error
other than `sql.ErrNoRows`, `fetchLastOfType` returns the zero-valued row, so an
event 10 s after the previous one (cooldown 60 s) is sent and answered 201,
where the same request with a working query is suppressed. -/
theorem handler_swallows_storage_errors (numeric : String → String) :
    ((saveNotify numeric [] (faultyWorld 0 false true)
        { Id := 0, Type_ := "disk-full", Time := utc 0, Message := "m" }).2 = .error "exec" ∧
      (handler numeric exampleConfig (faultyWorld 0 false true) []
        (.ok ⟨"disk-full", "m", "valid1"⟩)).response = createdResponse ∧
      (handler numeric exampleConfig (faultyWorld 0 false true) []
        (.ok ⟨"disk-full", "m", "valid1"⟩)).db = []) ∧
    (fetchLastOfType numeric [{ exampleRow 1 0 with type := numeric "disk-full" }]
        (faultyWorld (10 * Second) true false) "disk-full" = some zeroNotify ∧
      (handler numeric exampleConfig (faultyWorld (10 * Second) false false)
        [{ exampleRow 1 0 with type := numeric "disk-full" }]
        (.ok ⟨"disk-full", "m", "valid1"⟩)).response = throttledResponse ∧
      (handler numeric exampleConfig (faultyWorld (10 * Second) true false)
        [{ exampleRow 1 0 with type := numeric "disk-full" }]
        (.ok ⟨"disk-full", "m", "valid1"⟩)).response = createdResponse ∧
      Call.Send 7 "m" ∈ (handler numeric exampleConfig (faultyWorld (10 * Second) true false)
        [{ exampleRow 1 0 with type := numeric "disk-full" }]
        (.ok ⟨"disk-full", "m", "valid1"⟩)).calls) := by
  have htok : checkRequestToken exampleConfig "valid1" = true := by decide
  have h1 : checkTimeoutNotify numeric exampleConfig [] (faultyWorld 0 false true)
      "disk-full" = true := checkTimeoutNotify_nil _ _ _ _ rfl
  have h2 : checkTimeoutNotify numeric exampleConfig
      [{ exampleRow 1 0 with type := numeric "disk-full" }]
      (faultyWorld (10 * Second) false false) "disk-full" = false := by
    show checkTimeoutNotify numeric (ruleConfig "disk-full" 60) _ _ _ = false
    rw [checkTimeoutNotify_single _ _ _ _ _ rfl rfl,
      Seconds_Sub_whole _ _ 10 (by norm_num) (by rfl)]
    simp
    norm_num
  have hfetch : fetchLastOfType numeric [{ exampleRow 1 0 with type := numeric "disk-full" }]
      (faultyWorld (10 * Second) true false) "disk-full" = some zeroNotify := by
    simp [fetchLastOfType, QueryRowScan, faultyWorld]
  have h3 : checkTimeoutNotify numeric exampleConfig
      [{ exampleRow 1 0 with type := numeric "disk-full" }]
      (faultyWorld (10 * Second) true false) "disk-full" = true := by
    have hsub : Sub (faultyWorld (10 * Second) true false).checkNow zeroNotify.Time
        = maxDuration := by decide
    rw [checkTimeoutNotify_iff_of_fetch numeric exampleConfig _ _ "disk-full" 60 _
      (by simp [exampleConfig, ruleConfig]) hfetch, hsub, Seconds_maxDuration]
    norm_num
  refine ⟨⟨?_, ?_, ?_⟩, hfetch, ?_, ?_, ?_⟩
  · simp [saveNotify, faultyWorld]
  · rw [handler_allowed _ _ _ _ _ htok h1]
  · rw [handler_allowed _ _ _ _ _ htok h1]
    rfl
  · rw [handler_suppressed _ _ _ _ _ htok h2]
  · rw [handler_allowed _ _ _ _ _ htok h3]
  · rw [handler_allowed _ _ _ _ _ htok h3]
    simp [exampleConfig, ruleConfig]

/-- The table after event A of the scenario. -/
theorem scenarioA_db (numeric : String → String) (m1 : String) (e1 : Option String) :
    (scenarioA numeric m1 e1).db =
      [{ id := 1, type := numeric "disk-full", time := { wall := 0, zone := 0 },
         message := m1 }] := by
  have htok : checkRequestToken exampleConfig "valid1" = true := by decide
  unfold scenarioA
  rw [handler_allowed _ _ _ _ _ htok (checkTimeoutNotify_nil _ _ _ _ rfl)]
  simp [saveNotify, nextRowid, FormatRFC3339, exampleWorld, utc, Second]

/-- Event B of the scenario is suppressed. -/
theorem scenarioB_eq (numeric : String → String) (m1 m2 : String) (e1 e2 : Option String) :
    scenarioB numeric m1 m2 e1 e2 =
      { response := throttledResponse, db := (scenarioA numeric m1 e1).db,
        calls := [.checkRequestToken "valid1", .checkTimeoutNotify "disk-full"] } := by
  unfold scenarioB
  rw [handler_suppressed]
  · exact (checkRequestTokenLoop_iff_mem _ _).2 (by simp [exampleConfig, ruleConfig])
  · rw [scenarioA_db]
    show checkTimeoutNotify numeric (ruleConfig "disk-full" 60) _ _ _ = false
    rw [checkTimeoutNotify_single _ _ _ _ _ rfl rfl,
      Seconds_Sub_whole _ _ 30 (by norm_num) (by rfl)]
    simp
    norm_num

/-- C9: with the single rule "disk-full": 60 s, a valid token and an empty table,
event A at t = 0 is answered 201 and stored; event B at t = 30 gets the
throttled response and is neither sent nor stored; event C at t = 61 is
answered 201 and stored, and the most recent "disk-full" row then carries the
time of C. -/
theorem scenario_disk_full (numeric : String → String) (m1 m2 m3 : String)
    (e1 e2 e3 : Option String) :
    ((scenarioA numeric m1 e1).response.status = 201 ∧
      Call.Send 7 m1 ∈ (scenarioA numeric m1 e1).calls ∧
      (scenarioA numeric m1 e1).db =
        [{ id := 1, type := numeric "disk-full", time := FormatRFC3339 (utc (0 * Second)),
           message := m1 }]) ∧
    ((scenarioB numeric m1 m2 e1 e2).response = throttledResponse ∧
      (scenarioB numeric m1 m2 e1 e2).db = (scenarioA numeric m1 e1).db ∧
      (∀ chatId text, Call.Send chatId text ∉ (scenarioB numeric m1 m2 e1 e2).calls) ∧
      (∀ notify, Call.saveNotify notify ∉ (scenarioB numeric m1 m2 e1 e2).calls)) ∧
    ((scenarioC numeric m1 m2 m3 e1 e2 e3).response.status = 201 ∧
      Call.Send 7 m3 ∈ (scenarioC numeric m1 m2 m3 e1 e2 e3).calls ∧
      (scenarioC numeric m1 m2 m3 e1 e2 e3).db =
        [{ id := 1, type := numeric "disk-full", time := FormatRFC3339 (utc (0 * Second)),
           message := m1 },
         { id := 2, type := numeric "disk-full", time := FormatRFC3339 (utc (61 * Second)),
           message := m3 }] ∧
      (fetchLastOfType numeric (scenarioC numeric m1 m2 m3 e1 e2 e3).db (exampleWorld 61 none)
        "disk-full").map (fun n => n.Time.unixNano) = some (61 * Second)) := by
  have hA : scenarioA numeric m1 e1 = handler numeric exampleConfig (exampleWorld 0 e1) []
      (.ok ⟨"disk-full", m1, "valid1"⟩) := rfl
  have htok : checkRequestToken exampleConfig "valid1" = true := by decide
  have hchkA : checkTimeoutNotify numeric exampleConfig [] (exampleWorld 0 e1) "disk-full"
      = true := checkTimeoutNotify_nil _ _ _ _ rfl
  have hchkC : checkTimeoutNotify numeric exampleConfig
      [{ id := 1, type := numeric "disk-full", time := { wall := 0, zone := 0 },
         message := m1 }]
      (exampleWorld 61 e3) "disk-full" = true := by
    show checkTimeoutNotify numeric (ruleConfig "disk-full" 60) _ _ _ = true
    rw [checkTimeoutNotify_single _ _ _ _ _ rfl rfl,
      Seconds_Sub_whole _ _ 61 (by norm_num) (by rfl)]
    simp
    norm_num
  have hC : scenarioC numeric m1 m2 m3 e1 e2 e3 = handler numeric exampleConfig
      (exampleWorld 61 e3)
      [{ id := 1, type := numeric "disk-full", time := { wall := 0, zone := 0 },
         message := m1 }]
      (.ok ⟨"disk-full", m3, "valid1"⟩) := by
    unfold scenarioC
    rw [scenarioB_eq, scenarioA_db]
  refine ⟨⟨?_, ?_, ?_⟩, ⟨?_, ?_, ?_, ?_⟩, ?_, ?_, ?_, ?_⟩
  · rw [hA, handler_allowed _ _ _ _ _ htok hchkA]; rfl
  · rw [hA, handler_allowed _ _ _ _ _ htok hchkA]; simp [exampleConfig, ruleConfig]
  · rw [scenarioA_db]; simp [FormatRFC3339, utc, Second]
  · rw [scenarioB_eq]
  · rw [scenarioB_eq]
  · rw [scenarioB_eq]; simp
  · rw [scenarioB_eq]; simp
  · rw [hC, handler_allowed _ _ _ _ _ htok hchkC]; rfl
  · rw [hC, handler_allowed _ _ _ _ _ htok hchkC]; simp [exampleConfig, ruleConfig]
  · rw [hC, handler_allowed _ _ _ _ _ htok hchkC]
    simp [saveNotify, nextRowid, FormatRFC3339, exampleWorld, utc, Second]
  · rw [hC, handler_allowed _ _ _ _ _ htok hchkC]
    simp [saveNotify, nextRowid, FormatRFC3339, exampleWorld, utc, Second, fetchLastOfType,
      QueryRowScan, orderByTimeDescLimit1, sortKey, Prod.Lex.lt_iff, scanRow, RFC3339.parse]

/-- C10, as the code has it: `saveNotify` stores the acceptance time `t0` cut
down to whole seconds.  When the insert and the query do not fail and no
matching row's time text exceeds the new one, that is the time
`fetchLastOfType` reads back, and the next check of the type, at `t1`, returns
true exactly when the `float64` seconds of `t1 - floor(t0)` exceed the
cooldown `c`: only if `t1 - floor(t0) > c` when `c ≥ 0` is a `float64`, and
exactly when `t1 - floor(t0) > c` for a gap of a whole number of seconds.  On
a table without a matching row, for every cooldown `0 ≤ c < 9223372035` there
are `t0 ≤ t1` with `t1 - t0 ≤ c`, less than a second short of `c`, at which
the event is allowed. -/
theorem saveNotify_truncates_to_seconds
    (numeric : String → String) (config : Config) (db : Table) (typeNotify : String) (c : ℚ)
    (hrule : (config.DurationTimeout.find? (fun r => r.Type_ == typeNotify)).map
      (fun r => r.TimeoutSecond) = some c) :
    (∀ (message : String) (t0 : Time) (wsave w : World),
        wsave.execErr = false → w.queryErr = false →
        (∀ r ∈ db, r.type = numeric typeNotify →
          sortKey r.time ≤ sortKey (FormatRFC3339 t0)) →
        (t0.unixNano / 1000000000 * 1000000000 ≤ t0.unixNano ∧
          t0.unixNano < t0.unixNano / 1000000000 * 1000000000 + 1000000000) ∧
        (fetchLastOfType numeric
            (saveNotify numeric db wsave { Id := 0, Type_ := typeNotify, Time := t0,
                                           Message := message }).1 w typeNotify).map
            (fun n => n.Time.unixNano) = some (t0.unixNano / 1000000000 * 1000000000) ∧
        (checkTimeoutNotify numeric config
            (saveNotify numeric db wsave { Id := 0, Type_ := typeNotify, Time := t0,
                                           Message := message }).1 w typeNotify = true ↔
          Seconds (Sub w.checkNow
            { unixNano := t0.unixNano / 1000000000 * 1000000000, offset := t0.offset }) > c) ∧
        (roundFloat64 c = c → 0 ≤ c →
          checkTimeoutNotify numeric config
            (saveNotify numeric db wsave { Id := 0, Type_ := typeNotify, Time := t0,
                                           Message := message }).1 w typeNotify = true →
          ((w.checkNow.unixNano - t0.unixNano / 1000000000 * 1000000000 : Int) : ℚ)
            / 1000000000 > c) ∧
        (∀ k : Int, |k| ≤ 9223372036 →
          w.checkNow.unixNano - t0.unixNano / 1000000000 * 1000000000 = k * 1000000000 →
          (checkTimeoutNotify numeric config
            (saveNotify numeric db wsave { Id := 0, Type_ := typeNotify, Time := t0,
                                           Message := message }).1 w typeNotify = true ↔
            (k : ℚ) > c))) ∧
    ((∀ r ∈ db, r.type ≠ numeric typeNotify) → 0 ≤ c → c < 9223372035 →
      ∃ t0 t1 : Time,
        t0.unixNano ≤ t1.unixNano ∧
        ((t1.unixNano - t0.unixNano : Int) : ℚ) / 1000000000 ≤ c ∧
        c - ((t1.unixNano - t0.unixNano : Int) : ℚ) / 1000000000 < 1 ∧
        ∀ (message : String) (wsave w : World),
          wsave.execErr = false → w.queryErr = false → w.checkNow = t1 →
          checkTimeoutNotify numeric config
            (saveNotify numeric db wsave { Id := 0, Type_ := typeNotify, Time := t0,
                                           Message := message }).1 w typeNotify = true) := by
  constructor
  · intro message t0 wsave w hexec hquery hfirst
    have hfloor : ∀ x : Int, x / 1000000000 * 1000000000 ≤ x ∧
        x < x / 1000000000 * 1000000000 + 1000000000 := by
      intro x
      constructor <;> omega
    obtain ⟨hread, hiff⟩ := saveNotify_then_check numeric config db typeNotify c hrule
      message t0 wsave w hexec hquery hfirst
    refine ⟨hfloor t0.unixNano, hread, hiff, ?_, ?_⟩
    · intro hfix hc0 hchk
      by_contra hle
      have := Seconds_Sub_le_of_le w.checkNow
        { unixNano := t0.unixNano / 1000000000 * 1000000000, offset := t0.offset } c hc0 hfix
        (not_lt.1 hle)
      exact absurd (hiff.1 hchk) (not_lt.2 this)
    · intro k hk hgap
      rw [hiff, Seconds_Sub_whole _ _ k hk hgap]
  · intro hnone hc0 hc1
    have hfl0 : (0 : ℤ) ≤ ⌊c⌋ := Int.floor_nonneg.2 hc0
    have hfl1 : ⌊c⌋ ≤ 9223372034 := by
      have : ⌊c⌋ < 9223372035 := Int.floor_lt.2 (by exact_mod_cast hc1)
      omega
    have hle : ((⌊c⌋ : ℤ) : ℚ) ≤ c := Int.floor_le c
    have hlt : c < ((⌊c⌋ : ℤ) : ℚ) + 1 := Int.lt_floor_add_one c
    have hvac : ∀ t0 : Time, ∀ r ∈ db, r.type = numeric typeNotify →
        sortKey r.time ≤ sortKey (FormatRFC3339 t0) :=
      fun _ r hr hty => absurd hty (hnone r hr)
    by_cases hhalf : c < ((⌊c⌋ : ℤ) : ℚ) + 1 / 2
    · refine ⟨utc 500000000, utc (⌊c⌋ * 1000000000 + 500000000), ?_, ?_, ?_, ?_⟩
      · show (500000000 : ℤ) ≤ ⌊c⌋ * 1000000000 + 500000000
        omega
      · show (((⌊c⌋ * 1000000000 + 500000000 - 500000000 : ℤ)) : ℚ) / 1000000000 ≤ c
        rw [div_le_iff₀ (by norm_num)]
        push_cast
        linarith
      · show c - (((⌊c⌋ * 1000000000 + 500000000 - 500000000 : ℤ)) : ℚ) / 1000000000 < 1
        rw [sub_lt_iff_lt_add, ← sub_lt_iff_lt_add', lt_div_iff₀ (by norm_num)]
        push_cast
        linarith
      · intro message wsave w hexec hquery hnow
        rw [(saveNotify_then_check numeric config db typeNotify c hrule message _ wsave w
          hexec hquery (hvac _)).2, hnow]
        have hsub : Sub (utc (⌊c⌋ * 1000000000 + 500000000))
            { unixNano := (utc 500000000).unixNano / 1000000000 * 1000000000,
              offset := (utc 500000000).offset } = ⌊c⌋ * 1000000000 + 500000000 := by
          rw [Sub_of_bounds]
          · show ⌊c⌋ * 1000000000 + 500000000 - 500000000 / 1000000000 * 1000000000 = _
            omega
          · show ⌊c⌋ * 1000000000 + 500000000 - 500000000 / 1000000000 * 1000000000 ≤ _
            omega
          · show _ ≤ ⌊c⌋ * 1000000000 + 500000000 - 500000000 / 1000000000 * 1000000000
            omega
        rw [hsub, Seconds_half _ hfl0 (by omega)]
        linarith
    · refine ⟨utc 500000000, utc ((⌊c⌋ + 1) * 1000000000), ?_, ?_, ?_, ?_⟩
      · show (500000000 : ℤ) ≤ (⌊c⌋ + 1) * 1000000000
        omega
      · show ((((⌊c⌋ + 1) * 1000000000 - 500000000 : ℤ)) : ℚ) / 1000000000 ≤ c
        rw [div_le_iff₀ (by norm_num)]
        push_cast
        linarith [not_lt.1 hhalf]
      · show c - ((((⌊c⌋ + 1) * 1000000000 - 500000000 : ℤ)) : ℚ) / 1000000000 < 1
        rw [sub_lt_iff_lt_add, ← sub_lt_iff_lt_add', lt_div_iff₀ (by norm_num)]
        push_cast
        linarith
      · intro message wsave w hexec hquery hnow
        rw [(saveNotify_then_check numeric config db typeNotify c hrule message _ wsave w
          hexec hquery (hvac _)).2, hnow]
        rw [Seconds_Sub_whole _ _ (⌊c⌋ + 1) (by rw [abs_le]; constructor <;> omega)
          (by
            show (⌊c⌋ + 1) * 1000000000 - 500000000 / 1000000000 * 1000000000 = _
            omega)]
        push_cast
        linarith

/-- C10 at a concrete input: cooldown 60 s on an empty table. -/
theorem saveNotify_truncates_to_seconds_witness :
    (∀ (message : String) (t0 : Time) (wsave w : World),
        wsave.execErr = false → w.queryErr = false →
        (∀ r ∈ ([] : Table), r.type = decimalInteger "disk-full" →
          sortKey r.time ≤ sortKey (FormatRFC3339 t0)) →
        (t0.unixNano / 1000000000 * 1000000000 ≤ t0.unixNano ∧
          t0.unixNano < t0.unixNano / 1000000000 * 1000000000 + 1000000000) ∧
        (fetchLastOfType decimalInteger
            (saveNotify decimalInteger [] wsave { Id := 0, Type_ := "disk-full", Time := t0,
                                                  Message := message }).1 w "disk-full").map
            (fun n => n.Time.unixNano) = some (t0.unixNano / 1000000000 * 1000000000) ∧
        (checkTimeoutNotify decimalInteger exampleConfig
            (saveNotify decimalInteger [] wsave { Id := 0, Type_ := "disk-full", Time := t0,
                                                  Message := message }).1 w "disk-full" = true ↔
          Seconds (Sub w.checkNow
            { unixNano := t0.unixNano / 1000000000 * 1000000000, offset := t0.offset }) > 60) ∧
        (roundFloat64 60 = 60 → (0 : ℚ) ≤ 60 →
          checkTimeoutNotify decimalInteger exampleConfig
            (saveNotify decimalInteger [] wsave { Id := 0, Type_ := "disk-full", Time := t0,
                                                  Message := message }).1 w "disk-full" = true →
          ((w.checkNow.unixNano - t0.unixNano / 1000000000 * 1000000000 : Int) : ℚ)
            / 1000000000 > 60) ∧
        (∀ k : Int, |k| ≤ 9223372036 →
          w.checkNow.unixNano - t0.unixNano / 1000000000 * 1000000000 = k * 1000000000 →
          (checkTimeoutNotify decimalInteger exampleConfig
            (saveNotify decimalInteger [] wsave { Id := 0, Type_ := "disk-full", Time := t0,
                                                  Message := message }).1 w "disk-full" = true ↔
            (k : ℚ) > 60))) ∧
    ((∀ r ∈ ([] : Table), r.type ≠ decimalInteger "disk-full") → (0 : ℚ) ≤ 60 →
      (60 : ℚ) < 9223372035 →
      ∃ t0 t1 : Time,
        t0.unixNano ≤ t1.unixNano ∧
        ((t1.unixNano - t0.unixNano : Int) : ℚ) / 1000000000 ≤ 60 ∧
        (60 : ℚ) - ((t1.unixNano - t0.unixNano : Int) : ℚ) / 1000000000 < 1 ∧
        ∀ (message : String) (wsave w : World),
          wsave.execErr = false → w.queryErr = false → w.checkNow = t1 →
          checkTimeoutNotify decimalInteger exampleConfig
            (saveNotify decimalInteger [] wsave { Id := 0, Type_ := "disk-full", Time := t0,
                                                  Message := message }).1 w "disk-full" = true) :=
  saveNotify_truncates_to_seconds decimalInteger exampleConfig [] "disk-full" 60
    (by simp [exampleConfig, ruleConfig])

/-- C10 as stated fails in four ways.  (1) `float64` rounding: an event
accepted at 0.5 s is stored as 0 s; with cooldown 2^24 s the check one
nanosecond past 2^24 s returns false although `t1 - floor(t0) > c`.  (2) Text
order: with a row written at 100 s under offset +02:00 in the table, an event
accepted at 3000.5 s in UTC is stored, and `fetchLastOfType` still reads back
100 s.  (3) A failing `INSERT`: nothing is stored and nothing is read back.
(4) A failing `SELECT`: the time read back is the zero time. -/
theorem saveNotify_truncation_not_exact :
    ((saveNotify decimalInteger [] (exampleWorld 0 none)
          { Id := 0, Type_ := "disk-full", Time := utc 500000000, Message := "m" }).1 =
        [{ id := 1, type := "disk-full", time := { wall := 0, zone := 0 }, message := "m" }] ∧
      checkTimeoutNotify decimalInteger (ruleConfig "disk-full" 16777216)
        [{ id := 1, type := "disk-full", time := { wall := 0, zone := 0 }, message := "m" }]
        (faultyWorld 16777216000000001 false false) "disk-full" = false ∧
      (((16777216000000001 - 500000000 / 1000000000 * 1000000000 : Int) : ℚ) / 1000000000
        > 16777216)) ∧
    ((saveNotify decimalInteger
          [{ id := 1, type := "disk-full", time := { wall := 7300, zone := 120 },
             message := "a" }]
          (exampleWorld 3000 none)
          { Id := 0, Type_ := "disk-full", Time := utc 3000500000000, Message := "b" }).1 =
        [{ id := 1, type := "disk-full", time := { wall := 7300, zone := 120 }, message := "a" },
         { id := 2, type := "disk-full", time := { wall := 3000, zone := 0 }, message := "b" }] ∧
      (fetchLastOfType decimalInteger
          [{ id := 1, type := "disk-full", time := { wall := 7300, zone := 120 },
             message := "a" },
           { id := 2, type := "disk-full", time := { wall := 3000, zone := 0 }, message := "b" }]
          (exampleWorld 3000 none) "disk-full").map (fun n => n.Time.unixNano)
        = some (100 * Second) ∧
      (3000500000000 : Int) / 1000000000 * 1000000000 = 3000 * Second ∧
      (100 * Second : Int) ≠ 3000 * Second) ∧
    ((saveNotify decimalInteger [] (faultyWorld 0 false true)
          { Id := 0, Type_ := "disk-full", Time := utc 500000000, Message := "m" }).1 = [] ∧
      fetchLastOfType decimalInteger [] (exampleWorld 1 none) "disk-full" = none) ∧
    ((fetchLastOfType decimalInteger
          [{ id := 1, type := "disk-full", time := { wall := 0, zone := 0 }, message := "m" }]
          (faultyWorld Second true false) "disk-full").map (fun n => n.Time.unixNano)
        = some (-62135596800 * Second) ∧
      (-62135596800 * Second : Int) ≠ 500000000 / 1000000000 * 1000000000) := by
  refine ⟨⟨by decide, ?_, by norm_num⟩, ⟨by decide, by decide, by decide, by decide⟩,
    ⟨by decide, by decide⟩, by decide, by decide⟩
  rw [checkTimeoutNotify_single _ _ _ _ _ rfl (by decide)]
  have hsub : Sub (faultyWorld 16777216000000001 false false).checkNow
      (RFC3339.parse { wall := 0, zone := 0 }) = 16777216000000001 := by decide
  rw [hsub, Seconds_boundary]
  simp

/-! ## Further properties of the handler -/

/-- A body that does not decode (malformed JSON, an unknown field) is answered
400 with the decoder's message; `handler` calls nothing and the table is
unchanged. -/
theorem handler_bad_request (numeric : String → String) (config : Config) (w : World)
    (db : Table) (err : String) :
    (handler numeric config w db (.error err)).response = httpError err 400 ∧
      (handler numeric config w db (.error err)).response.status = 400 ∧
      (handler numeric config w db (.error err)).calls = [] ∧
      (handler numeric config w db (.error err)).db = db :=
  ⟨rfl, rfl, rfl, rfl⟩

/-- The function `checkRequestToken` returns true exactly for the elements of
`config.Tokens`. -/
theorem checkRequestToken_iff_mem (config : Config) (token : String) :
    checkRequestToken config token = true ↔ token ∈ config.Tokens := by
  unfold checkRequestToken
  induction config.Tokens with
  | nil => simp [checkRequestTokenLoop]
  | cons validTokens rest ih =>
    by_cases h : validTokens = token
    · simp [checkRequestTokenLoop, h]
    · have h2 : ¬ token = validTokens := fun e => h e.symm
      simp [checkRequestTokenLoop, h, h2, ih]

end TgNotify
